import Mathlib

/-!
Verification of the on-chain proxy detector of the harpoon repository
(src/proxy_detect/{detector.rs, eip1167.rs, read_string.rs, types.rs}).

Rust strings are modelled as lists of bytes (`List Nat`, each element a UTF-8
code unit).  Rust `&str` slicing `&s[a..b]` panics unless `a <= b <= s.len()`
and both `a` and `b` lie on UTF-8 character boundaries; this is modelled by
`rSlice`, which returns `none` exactly when the Rust slice would panic.
Fallible Rust functions returning `Result` are modelled in `PE`, a three-way
outcome: `ok`, `err` (the `Err` channel, message included) and `panic`.
`u64`/`usize` arithmetic wraps modulo `2 ^ 64` (release-profile semantics;
the inputs used in the theorems below panic under either profile, since a
wrapped index makes the subsequent slice panic where the debug profile would
already have panicked at the overflowing operation itself).
-/

set_option maxRecDepth 8000

namespace Harpoon

/-! ## Definitions: the embedding of the proxy-detect module -/



/-- UTF-8 encoding of one character, as byte values. -/
def encodeChar (c : Char) : List Nat :=
  let n := c.toNat
  if n < 0x80 then [n]
  else if n < 0x800 then [0xC0 + n / 0x40, 0x80 + n % 0x40]
  else if n < 0x10000 then [0xE0 + n / 0x1000, 0x80 + n / 0x40 % 0x40, 0x80 + n % 0x40]
  else [0xF0 + n / 0x40000, 0x80 + n / 0x1000 % 0x40, 0x80 + n / 0x40 % 0x40, 0x80 + n % 0x40]

/-- The UTF-8 bytes of a string literal: the model of a Rust `&str` / `String`. -/
def bytes (s : String) : List Nat := (s.data.map encodeChar).flatten

/-- A byte string consisting only of single-byte (ASCII) characters. -/
def AsciiStr (s : List Nat) : Prop := ∀ b ∈ s, b < 0x80

instance (s : List Nat) : Decidable (AsciiStr s) := by
  unfold AsciiStr; infer_instance

/-- Rust `str::is_char_boundary`: position 0, the end of the string, or a byte
that is not a UTF-8 continuation byte. -/
def charBoundary (s : List Nat) (i : Nat) : Bool :=
  if i = 0 then true
  else match s.get? i with
    | some b => decide (b < 0x80) || decide (0xC0 ≤ b)
    | none => decide (i = s.length)

/-- Rust `&s[a..b]`: `none` models the panic (out of range or not on a
character boundary), `some` the sliced bytes. -/
def rSlice (s : List Nat) (a b : Nat) : Option (List Nat) :=
  if a ≤ b ∧ b ≤ s.length ∧ charBoundary s a ∧ charBoundary s b then
    some ((s.drop a).take (b - a))
  else none

/-- Rust `&s[a..]`. -/
def rSliceFrom (s : List Nat) (a : Nat) : Option (List Nat) :=
  rSlice s a s.length

/-- Rust `str::starts_with(&str)`: byte-prefix test. -/
def listStartsWith (s p : List Nat) : Bool :=
  decide (s.take p.length = p)

/-- Number of characters of a UTF-8 byte string (count of non-continuation
bytes); Rust `format!` width padding counts characters. -/
def charCount (s : List Nat) : Nat :=
  (s.filter (fun b => decide (b < 0x80) || decide (0xC0 ≤ b))).length

/-- Rust `format!("{:0>w}", s)`: left-pad with the character 0 to width `w`. -/
def leftPadZeros (w : Nat) (s : List Nat) : List Nat :=
  List.replicate (w - charCount s) 0x30 ++ s

/-- Value of one hexadecimal digit character (as in Rust `char::to_digit(16)`). -/
def hexVal (c : Nat) : Option Nat :=
  if 0x30 ≤ c ∧ c ≤ 0x39 then some (c - 0x30)
  else if 0x61 ≤ c ∧ c ≤ 0x66 then some (c - 0x57)
  else if 0x41 ≤ c ∧ c ≤ 0x46 then some (c - 0x37)
  else none

/-- Lowercase hex digit character for a value below 16. -/
def hexChar (d : Nat) : Nat :=
  if d < 10 then 0x30 + d else 0x57 + d

/-- Accumulating value of a run of hex digit characters; `none` on the first
non-digit. -/
def hexDigitsVal (acc : Nat) : List Nat → Option Nat
  | [] => some acc
  | c :: rest =>
    match hexVal c with
    | none => none
    | some d => hexDigitsVal (acc * 16 + d) rest

/-- Rust `uN::from_str_radix(s, 16)` for an unsigned type with maximum value
`max`: optional leading plus sign, then a nonempty run of hex digits; values
above `max` are a `PosOverflow` error (the per-step checked arithmetic of the
Rust implementation overflows exactly when the final value exceeds `max`,
since the accumulator is monotone). -/
def from_str_radix_16 (max : Nat) (s : List Nat) : Option Nat :=
  let digits := if s.head? = some 0x2B then s.tail else s
  if digits = [] then none
  else match hexDigitsVal 0 digits with
    | none => none
    | some v => if v ≤ max then some v else none

/-- `2 ^ 64`, the modulus of `u64` / `usize` arithmetic. -/
def W64 : Nat := 18446744073709551616

/-- Wrapping `u64` / `usize` arithmetic result. -/
def w64 (n : Nat) : Nat := n % W64

/-- Outcome of a fallible Rust computation: `ok`, `Err` with its message
bytes, or a panic. -/
inductive PE (α : Type) where
  | panic : PE α
  | err : List Nat → PE α
  | ok : α → PE α

deriving DecidableEq

def ZERO_ADDRESS : List Nat := bytes ("0x0000000000000000000000000000000000000000")

def EIP_1167_BYTECODE_HEAD : List Nat := bytes ("0x363d3d373d3d3d363d")

def EIP_1167_BYTECODE_SUFFIX : List Nat := bytes ("57fd5bf3")

/-- `parse_1167_bytecode` of src/proxy_detect/eip1167.rs.  All offsets are
byte offsets into the hex string (one hex character = one byte of the
string). -/
def parse_1167_bytecode (bytecode : List Nat) : PE (List Nat) :=
  if ¬ listStartsWith bytecode EIP_1167_BYTECODE_HEAD then
    .err (bytes ("Not an EIP-1167 bytecode"))
  else
    let prefix_len := EIP_1167_BYTECODE_HEAD.length
    if bytecode.length < prefix_len + 2 then
      .err (bytes ("Not an EIP-1167 bytecode"))
    else
      match rSlice bytecode prefix_len (prefix_len + 2) with
      | none => .panic
      | some push_n_hex =>
        match from_str_radix_16 255 push_n_hex with
        | none => .err (bytes ("Invalid push opcode"))
        | some push_opcode =>
          let address_length : Int := (push_opcode : Int) - 0x5f
          if address_length < 1 ∨ 20 < address_length then
            .err (bytes ("Not an EIP-1167 bytecode"))
          else
            let address_start := prefix_len + 2
            let address_end := address_start + address_length.toNat * 2
            if bytecode.length < address_end then
              .err (bytes ("Not an EIP-1167 bytecode"))
            else
              match rSlice bytecode address_start address_end with
              | none => .panic
              | some address_from_bytecode =>
                let suffix_start := address_end + 22
                if bytecode.length < suffix_start + EIP_1167_BYTECODE_SUFFIX.length then
                  .err (bytes ("Not an EIP-1167 bytecode"))
                else
                  match rSliceFrom bytecode suffix_start with
                  | none => .panic
                  | some suffix_part =>
                    if ¬ listStartsWith suffix_part EIP_1167_BYTECODE_SUFFIX then
                      .err (bytes ("Not an EIP-1167 bytecode"))
                    else
                      .ok (bytes ("0x") ++ leftPadZeros 40 address_from_bytecode)

/-- `read_address` of src/proxy_detect/detector.rs. -/
def read_address (value : List Nat) : PE (List Nat) :=
  if value = [] ∨ value = bytes ("0x") then
    .err (bytes ("Invalid address value"))
  else
    match (if value.length = 66 then
            match rSliceFrom value 26 with
            | none => PE.panic
            | some t => PE.ok (bytes ("0x") ++ t)
          else PE.ok value) with
    | .panic => .panic
    | .err e => .err e
    | .ok address =>
      if address = ZERO_ADDRESS then .err (bytes ("Empty address"))
      else .ok address

/-- The `for _ in 0..length` loop of `read_address_array`: slice one 32-byte
word (64 hex characters) per step, keep the low 20 bytes prefixed with 0x,
filter the zero address. -/
def read_address_array_loop (hex : List Nat) (cursor : Nat) : Nat → PE (List (List Nat))
  | 0 => .ok []
  | n + 1 =>
    match rSlice hex cursor (w64 (cursor + 64)) with
    | none => .panic
    | some word =>
      match rSliceFrom word 24 with
      | none => .panic
      | some low =>
        let address_hex := bytes ("0x") ++ low
        match read_address_array_loop hex (w64 (cursor + 64)) n with
        | .panic => .panic
        | .err e => .err e
        | .ok rest =>
          .ok (if address_hex = ZERO_ADDRESS then rest else address_hex :: rest)

/-- `read_address_array` of src/proxy_detect/detector.rs. -/
def read_address_array (value : List Nat) : PE (List (List Nat)) :=
  if ¬ listStartsWith value (bytes ("0x")) then
    .err (bytes ("Invalid hex-encoded value"))
  else
    match rSliceFrom value 2 with
    | none => .panic
    | some hex =>
      if hex.length < 64 then .err (bytes ("Insufficient data for address[]"))
      else
        match rSlice hex 0 64 with
        | none => .panic
        | some offset_word =>
          match from_str_radix_16 (W64 - 1) offset_word with
          | none => .err (bytes ("Invalid dynamic offset"))
          | some offset_bytes =>
            let offset := w64 (offset_bytes * 2)
            if hex.length < w64 (offset + 64) then
              .err (bytes ("Invalid dynamic offset for address[]"))
            else
              match rSlice hex offset (w64 (offset + 64)) with
              | none => .panic
              | some length_word =>
                match from_str_radix_16 (W64 - 1) length_word with
                | none => .err (bytes ("Invalid address[] length"))
                | some length =>
                  let cursor := w64 (offset + 64)
                  let needed := w64 (cursor + w64 (length * 64))
                  if hex.length < needed then .err (bytes ("Truncated address[] data"))
                  else
                    match read_address_array_loop hex cursor length with
                    | .panic => .panic
                    | .err e => .err e
                    | .ok addresses =>
                      if addresses = [] then .err (bytes ("Empty address[]"))
                      else .ok addresses

/-- UTF-8 validity of a byte list, as checked by Rust `String::from_utf8`
(rejecting overlong encodings, surrogates and code points above 0x10FFFF). -/
def validUtf8 : List Nat → Bool
  | [] => true
  | b :: rest =>
    if b < 0x80 then validUtf8 rest
    else if b < 0xC2 then false
    else if b < 0xE0 then
      match rest with
      | c1 :: r => (0x80 ≤ c1 && c1 < 0xC0) && validUtf8 r
      | [] => false
    else if b < 0xF0 then
      match rest with
      | c1 :: c2 :: r =>
        (if b = 0xE0 then 0xA0 ≤ c1 && c1 < 0xC0
         else if b = 0xED then 0x80 ≤ c1 && c1 < 0xA0
         else 0x80 ≤ c1 && c1 < 0xC0) &&
        (0x80 ≤ c2 && c2 < 0xC0) && validUtf8 r
      | _ => false
    else if b < 0xF5 then
      match rest with
      | c1 :: c2 :: c3 :: r =>
        (if b = 0xF0 then 0x90 ≤ c1 && c1 < 0xC0
         else if b = 0xF4 then 0x80 ≤ c1 && c1 < 0x90
         else 0x80 ≤ c1 && c1 < 0xC0) &&
        (0x80 ≤ c2 && c2 < 0xC0) && (0x80 ≤ c3 && c3 < 0xC0) && validUtf8 r
      | _ => false
    else false

/-- The hex-pair loop of `read_string`: `for i in (0..s.len()).step_by(2)`,
parsing `&s[i..i + 2]` as one byte each step.  The fuel argument starts at
`s.length` and strictly decreases; the loop itself stops once `i` reaches the
length. -/
def hexPairsToBytes (s : List Nat) : Nat → Nat → PE (List Nat)
  | _, 0 => .ok []
  | i, fuel + 1 =>
    if s.length ≤ i then .ok []
    else
      match rSlice s i (i + 2) with
      | none => .panic
      | some pair =>
        match from_str_radix_16 255 pair with
        | none => .err (bytes ("Invalid hex string"))
        | some b =>
          match hexPairsToBytes s (i + 2) fuel with
          | .panic => .panic
          | .err e => .err e
          | .ok rest => .ok (b :: rest)

/-- `read_string` of src/proxy_detect/read_string.rs.  The returned Rust
`String` is modelled by its UTF-8 bytes. -/
def read_string (hexIn : List Nat) : PE (List Nat) :=
  if ¬ listStartsWith hexIn (bytes ("0x")) then
    .err (bytes ("Hex string must start with 0x"))
  else
    match rSliceFrom hexIn 2 with
    | none => .panic
    | some clean_hex =>
      if clean_hex = [] then .ok []
      else if clean_hex.length % 2 ≠ 0 then .err (bytes ("Invalid hex string length"))
      else if clean_hex.length < 64 then .err (bytes ("Invalid string offset"))
      else
        match rSlice clean_hex 0 64 with
        | none => .panic
        | some offset_hex =>
          match from_str_radix_16 (W64 - 1) offset_hex with
          | none => .err (bytes ("Invalid string offset"))
          | some offset =>
            if offset ≠ 32 then .err (bytes ("Invalid string offset"))
            else if clean_hex.length < 128 then .err (bytes ("Invalid string length"))
            else
              match rSlice clean_hex 64 128 with
              | none => .panic
              | some length_hex =>
                match from_str_radix_16 (W64 - 1) length_hex with
                | none => .err (bytes ("Invalid string length"))
                | some length =>
                  let string_start := 128
                  let string_end := w64 (string_start + w64 (length * 2))
                  if clean_hex.length < string_end then
                    .err (bytes ("Insufficient string data"))
                  else
                    match rSlice clean_hex string_start string_end with
                    | none => .panic
                    | some string_hex =>
                      match hexPairsToBytes string_hex 0 string_hex.length with
                      | .panic => .panic
                      | .err e => .err e
                      | .ok bs =>
                        if validUtf8 bs then .ok bs
                        else .err (bytes ("Invalid UTF-8 data"))

/-- The fragment of `serde_json::Value` the detector constructs or inspects:
strings, objects (ordered field lists, duplicate-free in practice), and
everything else collapsed to `null` (whose `as_str` is `None` and whose
index is `null`, all the detector ever does with such values). -/
inductive Json where
  | str : List Nat → Json
  | obj : List (List Nat × Json) → Json
  | null : Json

/-- `Value::as_str`. -/
def Json.asStr : Json → Option (List Nat)
  | .str s => some s
  | _ => none

/-- Field lookup in an object's field list: first match, `null` if absent. -/
def jsonLookup (key : List Nat) : List (List Nat × Json) → Json
  | [] => .null
  | (k, v) :: rest => if k = key then v else jsonLookup key rest

/-- `Value::index` with a string key (`value["name"]`): `null` on
non-objects. -/
def Json.index (j : Json) (key : List Nat) : Json :=
  match j with
  | .obj fields => jsonLookup key fields
  | _ => .null

/-- `RequestArguments` of src/proxy_detect/types.rs. -/
structure RequestArguments where
  method : List Nat
  params : List Json

/-- The environment a detection run executes against: the JSON-RPC transport
and the external JSON parser. -/
structure Env where
  rpc : RequestArguments → Except (List Nat) Json
  fromStr : List Nat → Except (List Nat) Json

/-- `ProxyType` of src/proxy_detect/types.rs. -/
inductive ProxyType where
  | NotProxy
  | Eip1167
  | Eip1967Direct
  | Eip1967Beacon
  | Eip1822
  | Eip2535Diamond
  | Eip897
  | OpenZeppelin
  | Safe
  | Comptroller
  | BatchRelayer

deriving DecidableEq

/-- `ProxyResult` of src/proxy_detect/types.rs (`target` strings as byte
lists). -/
inductive ProxyResult where
  | Single (target : List Nat) (proxy_type : ProxyType) (immutable : Bool)
  | Diamond (target : List (List Nat)) (proxy_type : ProxyType) (immutable : Bool)

deriving DecidableEq

deriving instance DecidableEq for Except

/-- Result of a Rust computation that either returns a value or panics. -/
inductive PRes (α : Type) where
  | panic : PRes α
  | ret : α → PRes α

deriving DecidableEq

/-- Outcome of one probe: panic, or `Result<Option<ProxyResult>, DetectorError>`
(error messages as bytes), paired with the JSON-RPC requests it emitted in
order. -/
def ProbeOut : Type := PRes (Except (List Nat) (Option ProxyResult)) × List RequestArguments

def EIP_1967_LOGIC_SLOT : List Nat :=
  bytes ("0x360894a13ba1a3210667c828492db98dca3e2076cc3735a920a3ca505d382bbc")

def OPEN_ZEPPELIN_IMPLEMENTATION_SLOT : List Nat :=
  bytes ("0x7050c9e0f4ca769c69bd3a8ef740bc37934f8e2c036e5a723fd8ee048ed3f8c3")

def EIP_1822_LOGIC_SLOT : List Nat :=
  bytes ("0xc5f16f0fcc639fa48a6947836d9850f504798523bf8c9a3a87d5876cf622bcf7")

def EIP_1967_BEACON_SLOT : List Nat :=
  bytes ("0xa3f0ad74e5423aebfd80d3ef4346578335a9a72aeaee59ff6cb3582b35133d50")

def EIP_897_IMPLEMENTATION : List Nat :=
  bytes ("0x5c60da1b00000000000000000000000000000000000000000000000000000000")

def EIP_897_PROXY_TYPE : List Nat :=
  bytes ("0x4555d5c900000000000000000000000000000000000000000000000000000000")

def EIP_1967_BEACON_IMPLEMENTATION : List Nat :=
  bytes ("0x5c60da1b00000000000000000000000000000000000000000000000000000000")

def EIP_1967_BEACON_CHILD_IMPLEMENTATION : List Nat :=
  bytes ("0xda52571600000000000000000000000000000000000000000000000000000000")

def SAFE_MASTER_COPY : List Nat :=
  bytes ("0xa619486e00000000000000000000000000000000000000000000000000000000")

def COMPTROLLER_IMPLEMENTATION : List Nat :=
  bytes ("0xbb82aa5e00000000000000000000000000000000000000000000000000000000")

def BATCH_RELAYER_VERSION : List Nat :=
  bytes ("0x54fd4d5000000000000000000000000000000000000000000000000000000000")

def BATCH_RELAYER_GET_LIBRARY : List Nat :=
  bytes ("0x7678922e00000000000000000000000000000000000000000000000000000000")

def EIP_2535_FACET_ADDRESSES : List Nat :=
  bytes ("0x52ef6b2c00000000000000000000000000000000000000000000000000000000")

/-- The request `eth_getCode(address, block_tag)`. -/
def getCodeReq (a tag : List Nat) : RequestArguments :=
  ⟨bytes ("eth_getCode"), [.str a, .str tag]⟩

/-- The request `eth_getStorageAt(address, slot, block_tag)`. -/
def getStorageReq (a slot tag : List Nat) : RequestArguments :=
  ⟨bytes ("eth_getStorageAt"), [.str a, .str slot, .str tag]⟩

/-- The request `eth_call({to, data}, block_tag)`. -/
def callReq (toAddr data tag : List Nat) : RequestArguments :=
  ⟨bytes ("eth_call"), [.obj [(bytes ("to"), .str toAddr), (bytes ("data"), .str data)], .str tag]⟩

/-- `detect_eip1167`. -/
def detect_eip1167 (env : Env) (proxy_address block_tag : List Nat) : ProbeOut :=
  let req := getCodeReq proxy_address block_tag
  match env.rpc req with
  | .error e => (.ret (.error e), [req])
  | .ok bytecode =>
    match bytecode.asStr with
    | none => (.ret (.error (bytes ("Invalid bytecode"))), [req])
    | some bytecode_str =>
      match parse_1167_bytecode bytecode_str with
      | .panic => (.panic, [req])
      | .err _ => (.ret (.error (bytes ("Not EIP-1167"))), [req])
      | .ok target0 =>
        match read_address target0 with
        | .panic => (.panic, [req])
        | .err e => (.ret (.error e), [req])
        | .ok target =>
          (.ret (.ok (some (.Single target .Eip1167 true))), [req])

/-- A probe that reads one storage slot and decodes an address from it:
the common shape of `detect_eip1967_direct`, `detect_open_zeppelin` and
`detect_eip1822`. -/
def storageSlotProbe (env : Env) (proxy_address slot block_tag : List Nat)
    (kind : ProxyType) : ProbeOut :=
  let req := getStorageReq proxy_address slot block_tag
  match env.rpc req with
  | .error e => (.ret (.error e), [req])
  | .ok storage =>
    match storage.asStr with
    | none => (.ret (.error (bytes ("Invalid storage"))), [req])
    | some storage_str =>
      match read_address storage_str with
      | .panic => (.panic, [req])
      | .err e => (.ret (.error e), [req])
      | .ok target =>
        (.ret (.ok (some (.Single target kind false))), [req])

/-- `detect_eip1967_direct`. -/
def detect_eip1967_direct (env : Env) (proxy_address block_tag : List Nat) : ProbeOut :=
  storageSlotProbe env proxy_address EIP_1967_LOGIC_SLOT block_tag .Eip1967Direct

/-- `detect_eip1967_beacon`. -/
def detect_eip1967_beacon (env : Env) (proxy_address block_tag : List Nat) : ProbeOut :=
  let req := getStorageReq proxy_address EIP_1967_BEACON_SLOT block_tag
  match env.rpc req with
  | .error e => (.ret (.error e), [req])
  | .ok storage =>
    match storage.asStr with
    | none => (.ret (.error (bytes ("Invalid storage"))), [req])
    | some storage_str =>
      match read_address storage_str with
      | .panic => (.panic, [req])
      | .err e => (.ret (.error e), [req])
      | .ok beacon_address =>
        let req2 := callReq beacon_address EIP_1967_BEACON_IMPLEMENTATION block_tag
        let req3 := callReq beacon_address EIP_1967_BEACON_CHILD_IMPLEMENTATION block_tag
        match env.rpc req2 with
        | .ok impl_data => finishBeacon impl_data [req, req2]
        | .error _ =>
          match env.rpc req3 with
          | .error e => (.ret (.error e), [req, req2, req3])
          | .ok impl_data => finishBeacon impl_data [req, req2, req3]
where
  /-- Decoding of the beacon implementation response shared by the
  `implementation()` and `childImplementation()` branches. -/
  finishBeacon (impl_data : Json) (trace : List RequestArguments) : ProbeOut :=
    match impl_data.asStr with
    | none => (.ret (.error (bytes ("Invalid implementation"))), trace)
    | some impl_str =>
      match read_address impl_str with
      | .panic => (.panic, trace)
      | .err e => (.ret (.error e), trace)
      | .ok target =>
        (.ret (.ok (some (.Single target .Eip1967Beacon false))), trace)

/-- `detect_open_zeppelin`. -/
def detect_open_zeppelin (env : Env) (proxy_address block_tag : List Nat) : ProbeOut :=
  storageSlotProbe env proxy_address OPEN_ZEPPELIN_IMPLEMENTATION_SLOT block_tag .OpenZeppelin

/-- `detect_eip1822`. -/
def detect_eip1822 (env : Env) (proxy_address block_tag : List Nat) : ProbeOut :=
  storageSlotProbe env proxy_address EIP_1822_LOGIC_SLOT block_tag .Eip1822

/-- The full 32-byte word encoding the integer 1, compared against the
`proxyType()` response. -/
def PROXY_TYPE_ONE : List Nat :=
  bytes ("0x0000000000000000000000000000000000000000000000000000000000000001")

/-- `detect_eip897`.  Note: a transport error on the secondary `proxyType()`
call is propagated with `?` in the source, failing the whole probe. -/
def detect_eip897 (env : Env) (proxy_address block_tag : List Nat) : ProbeOut :=
  let req := callReq proxy_address EIP_897_IMPLEMENTATION block_tag
  match env.rpc req with
  | .error e => (.ret (.error e), [req])
  | .ok impl_data =>
    match impl_data.asStr with
    | none => (.ret (.error (bytes ("Invalid implementation"))), [req])
    | some impl_str =>
      match read_address impl_str with
      | .panic => (.panic, [req])
      | .err e => (.ret (.error e), [req])
      | .ok target =>
        let req2 := callReq proxy_address EIP_897_PROXY_TYPE block_tag
        match env.rpc req2 with
        | .error e => (.ret (.error e), [req, req2])
        | .ok proxy_type_data =>
          let proxy_type_str := proxy_type_data.asStr.getD []
          let immutable := proxy_type_str = PROXY_TYPE_ONE
          (.ret (.ok (some (.Single target .Eip897 immutable))), [req, req2])

/-- `detect_safe`. -/
def detect_safe (env : Env) (proxy_address block_tag : List Nat) : ProbeOut :=
  let req := callReq proxy_address SAFE_MASTER_COPY block_tag
  match env.rpc req with
  | .error e => (.ret (.error e), [req])
  | .ok master_copy_data =>
    match master_copy_data.asStr with
    | none => (.ret (.error (bytes ("Invalid master copy"))), [req])
    | some master_copy_str =>
      match read_address master_copy_str with
      | .panic => (.panic, [req])
      | .err e => (.ret (.error e), [req])
      | .ok target =>
        (.ret (.ok (some (.Single target .Safe false))), [req])

/-- `detect_comptroller`. -/
def detect_comptroller (env : Env) (proxy_address block_tag : List Nat) : ProbeOut :=
  let req := callReq proxy_address COMPTROLLER_IMPLEMENTATION block_tag
  match env.rpc req with
  | .error e => (.ret (.error e), [req])
  | .ok impl_data =>
    match impl_data.asStr with
    | none => (.ret (.error (bytes ("Invalid implementation"))), [req])
    | some impl_str =>
      match read_address impl_str with
      | .panic => (.panic, [req])
      | .err e => (.ret (.error e), [req])
      | .ok target =>
        (.ret (.ok (some (.Single target .Comptroller false))), [req])

/-- `detect_batch_relayer`. -/
def detect_batch_relayer (env : Env) (proxy_address block_tag : List Nat) : ProbeOut :=
  let req := callReq proxy_address BATCH_RELAYER_VERSION block_tag
  match env.rpc req with
  | .error e => (.ret (.error e), [req])
  | .ok version_data =>
    match version_data.asStr with
    | none => (.ret (.error (bytes ("Invalid version"))), [req])
    | some version_str =>
      match read_string version_str with
      | .panic => (.panic, [req])
      | .err e => (.ret (.error e), [req])
      | .ok decoded =>
        match env.fromStr decoded with
        | .error e => (.ret (.error e), [req])
        | .ok version_json =>
          if (version_json.index (bytes ("name"))).asStr ≠ some (bytes ("BatchRelayer")) then
            (.ret (.error (bytes ("Not a BatchRelayer"))), [req])
          else
            let req2 := callReq proxy_address BATCH_RELAYER_GET_LIBRARY block_tag
            match env.rpc req2 with
            | .error e => (.ret (.error e), [req, req2])
            | .ok library_data =>
              match library_data.asStr with
              | none => (.ret (.error (bytes ("Invalid library"))), [req, req2])
              | some library_str =>
                match read_address library_str with
                | .panic => (.panic, [req, req2])
                | .err e => (.ret (.error e), [req, req2])
                | .ok target =>
                  (.ret (.ok (some (.Single target .BatchRelayer true))), [req, req2])

/-- `detect_eip2535_diamond`. -/
def detect_eip2535_diamond (env : Env) (proxy_address block_tag : List Nat) : ProbeOut :=
  let req := callReq proxy_address EIP_2535_FACET_ADDRESSES block_tag
  match env.rpc req with
  | .error e => (.ret (.error e), [req])
  | .ok facets_data =>
    match facets_data.asStr with
    | none => (.ret (.error (bytes ("Invalid facets"))), [req])
    | some facets_str =>
      match read_address_array facets_str with
      | .panic => (.panic, [req])
      | .err e => (.ret (.error e), [req])
      | .ok target =>
        (.ret (.ok (some (.Diamond target .Eip2535Diamond false))), [req])

/-- One `if let Ok(Some(result)) = probe(..) { return Some(result) }` step of
`detect_proxy`: a success returns immediately, a panic propagates, anything
else falls through to the rest of the chain, accumulating the emitted
requests. -/
def probeStep (out : ProbeOut) (rest : Unit → PRes (Option ProxyResult) × List RequestArguments) :
    PRes (Option ProxyResult) × List RequestArguments :=
  match out with
  | (.panic, t) => (.panic, t)
  | (.ret (.ok (some r)), t) => (.ret (some r), t)
  | (_, t) => let n := rest (); (n.fst, t ++ n.snd)

/-- `detect_proxy` of src/proxy_detect/detector.rs, additionally recording
the JSON-RPC requests emitted (second component). -/
def detect_proxy (env : Env) (proxy_address : List Nat) (block_tag : Option (List Nat)) :
    PRes (Option ProxyResult) × List RequestArguments :=
  let tag := block_tag.getD (bytes ("latest"))
  probeStep (detect_eip1167 env proxy_address tag) fun _ =>
  probeStep (detect_eip1967_direct env proxy_address tag) fun _ =>
  probeStep (detect_eip1967_beacon env proxy_address tag) fun _ =>
  probeStep (detect_open_zeppelin env proxy_address tag) fun _ =>
  probeStep (detect_eip1822 env proxy_address tag) fun _ =>
  probeStep (detect_eip897 env proxy_address tag) fun _ =>
  probeStep (detect_safe env proxy_address tag) fun _ =>
  probeStep (detect_comptroller env proxy_address tag) fun _ =>
  probeStep (detect_batch_relayer env proxy_address tag) fun _ =>
  probeStep (detect_eip2535_diamond env proxy_address tag) fun _ =>
  (.ret none, [])

/-- The outcomes of the ten probes, in the source's fixed order. -/
def probeOutcomes (env : Env) (a tag : List Nat) :
    List (PRes (Except (List Nat) (Option ProxyResult))) :=
  [ (detect_eip1167 env a tag).fst
  , (detect_eip1967_direct env a tag).fst
  , (detect_eip1967_beacon env a tag).fst
  , (detect_open_zeppelin env a tag).fst
  , (detect_eip1822 env a tag).fst
  , (detect_eip897 env a tag).fst
  , (detect_safe env a tag).fst
  , (detect_comptroller env a tag).fst
  , (detect_batch_relayer env a tag).fst
  , (detect_eip2535_diamond env a tag).fst ]

/-- Selection of the first successful outcome in a list of probe outcomes:
a success returns it, a panic propagates, errors (and the never-produced
`Ok(None)`) fall through; `none` when the list is exhausted. -/
def firstSuccess : List (PRes (Except (List Nat) (Option ProxyResult))) →
    PRes (Option ProxyResult)
  | [] => .ret none
  | o :: rest =>
    match o with
    | .panic => .panic
    | .ret (.ok (some r)) => .ret (some r)
    | _ => firstSuccess rest

/-- The hex encoding of `v` zero-padded to `k` digits (lowercase). -/
def hexN : Nat → Nat → List Nat
  | 0, _ => []
  | k + 1, v => hexN k (v / 16) ++ [hexChar (v % 16)]

/-- EIP-1167-shaped bytecode: prefix, push opcode for width n, body, rest. -/
def bytecode1167 (n : Nat) (body rest : List Nat) : List Nat :=
  EIP_1167_BYTECODE_HEAD ++ [hexChar ((0x5f + n) / 16), hexChar ((0x5f + n) % 16)] ++ body ++ rest

/-- One step of first-success selection over a probe outcome. -/
def stepSel (o : PRes (Except (List Nat) (Option ProxyResult)))
    (k : PRes (Option ProxyResult)) : PRes (Option ProxyResult) :=
  match o with
  | .panic => .panic
  | .ret (.ok (some r)) => .ret (some r)
  | _ => k

/-- A probe outcome that falls through: an error, or the never-produced
Ok(None). -/
def probeFailed (o : PRes (Except (List Nat) (Option ProxyResult))) : Bool :=
  match o with
  | .ret (.error _) => true
  | .ret (.ok none) => true
  | _ => false

/-- The padded selector payloads the detector ever places in an eth_call
data field. -/
def selectorDatas : List (List Nat) :=
  [EIP_897_IMPLEMENTATION, EIP_897_PROXY_TYPE, EIP_1967_BEACON_IMPLEMENTATION,
   EIP_1967_BEACON_CHILD_IMPLEMENTATION, SAFE_MASTER_COPY, COMPTROLLER_IMPLEMENTATION,
   BATCH_RELAYER_VERSION, BATCH_RELAYER_GET_LIBRARY, EIP_2535_FACET_ADDRESSES]

/-- The data field of the first parameter of a request (the payload of an
eth_call). -/
def reqCallData (req : RequestArguments) : Option (List Nat) :=
  match req.params with
  | .obj fields :: _ => (jsonLookup (bytes ("data")) fields).asStr
  | _ => none

def addrA : List Nat := bytes ("0xaaaaaaaaaaaaaaaaaaaaaaaaaaaaaaaaaaaaaaaa")

def storageWord1 : List Nat :=
  bytes ("0x0000000000000000000000001111111111111111111111111111111111111111")

def code1167 : List Nat :=
  bytes ("0x363d3d373d3d3d363d73bebebebebebebebebebebebebebebebebebebebe5af43d82803e903d91602b57fd5bf3")

def targetBE : List Nat := bytes ("0xbebebebebebebebebebebebebebebebebebebebe")

def target11 : List Nat := bytes ("0x1111111111111111111111111111111111111111")

/-- RPC model in which the EIP-1167, EIP-1967-direct and EIP-897 patterns all
match at once. -/
def envAllMatch : Env where
  rpc := fun req =>
    if req.method = bytes ("eth_getCode") then .ok (.str code1167)
    else if req.method = bytes ("eth_getStorageAt") then .ok (.str storageWord1)
    else if req.method = bytes ("eth_call") then .ok (.str storageWord1)
    else .error []
  fromStr := fun _ => .error []

/-- RPC model where eth_getCode fails with a transport error while storage
reads return a non-zero word. -/
def envCodeDown : Env where
  rpc := fun req =>
    if req.method = bytes ("eth_getCode") then .error (bytes ("connection reset"))
    else if req.method = bytes ("eth_getStorageAt") then .ok (.str storageWord1)
    else .error []
  fromStr := fun _ => .error []

/-- RPC model returning a 66-byte storage word containing a euro sign whose
UTF-8 bytes cross offset 26. -/
def envNonAscii : Env where
  rpc := fun req =>
    if req.method = bytes ("eth_getCode") then .ok (.str (bytes ("0x")))
    else if req.method = bytes ("eth_getStorageAt") then
      .ok (.str (List.replicate 25 0x61 ++ [0xE2, 0x82, 0xAC] ++ List.replicate 38 0x61))
    else .error []
  fromStr := fun _ => .error []

/-- RPC model where implementation() answers a non-zero word but proxyType()
fails with a transport error. -/
def envProxyTypeDown : Env where
  rpc := fun req =>
    if req.method = bytes ("eth_call") then
      match reqCallData req with
      | some d =>
        if d = EIP_897_PROXY_TYPE then .error (bytes ("transport down"))
        else .ok (.str storageWord1)
      | none => .error []
    else .error []
  fromStr := fun _ => .error []

/-- RPC model failing every request. -/
def envAllErr : Env where
  rpc := fun _ => .error (bytes ("rpc down"))
  fromStr := fun _ => .error []

/-! ## Theorems -/

theorem asciiStr_append {a b : List Nat} (ha : AsciiStr a) (hb : AsciiStr b) :
    AsciiStr (a ++ b) := by
  intro x hx
  rcases List.mem_append.1 hx with h | h
  · exact ha x h
  · exact hb x h

theorem charCount_of_ascii {s : List Nat} (h : AsciiStr s) : charCount s = s.length := by
  unfold charCount
  rw [List.filter_eq_self.mpr]
  intro a ha
  have := h a ha
  simp only [Bool.or_eq_true, decide_eq_true_eq]
  omega

theorem charBoundary_of_ascii {s : List Nat} {i : Nat} (h : AsciiStr s) (hi : i ≤ s.length) :
    charBoundary s i = true := by
  unfold charBoundary
  by_cases h0 : i = 0
  · simp [h0]
  · rcases Nat.lt_or_ge i s.length with hlt | hge
    · rw [List.get?_eq_get hlt]
      have hmem := h (s.get ⟨i, hlt⟩) (List.get_mem s i hlt)
      simp only [h0, if_false, Bool.or_eq_true, decide_eq_true_eq]
      omega
    · have : i = s.length := Nat.le_antisymm hi hge
      rw [List.get?_eq_none.mpr hge]
      simp [h0, this]

theorem rSlice_of_ascii {s : List Nat} {a b : Nat} (h : AsciiStr s) (hab : a ≤ b)
    (hb : b ≤ s.length) : rSlice s a b = some ((s.drop a).take (b - a)) := by
  unfold rSlice
  rw [if_pos]
  exact ⟨hab, hb, charBoundary_of_ascii h (le_trans hab hb), charBoundary_of_ascii h hb⟩

theorem rSliceFrom_of_ascii {s : List Nat} {a : Nat} (h : AsciiStr s) (ha : a ≤ s.length) :
    rSliceFrom s a = some (s.drop a) := by
  unfold rSliceFrom
  rw [rSlice_of_ascii h ha (le_refl _)]
  congr 1
  have : (s.drop a).length = s.length - a := List.length_drop a s
  calc (s.drop a).take (s.length - a) = (s.drop a).take (s.drop a).length := by rw [this]
    _ = s.drop a := List.take_length (s.drop a)

theorem hexChar_ascii {d : Nat} (h : d < 16) : hexChar d < 0x80 := by
  unfold hexChar; split <;> omega

theorem hexChar_ge (d : Nat) : 0x30 ≤ hexChar d := by
  unfold hexChar; split <;> omega

theorem hexVal_hexChar {d : Nat} (h : d < 16) : hexVal (hexChar d) = some d := by
  unfold hexVal hexChar
  by_cases h10 : d < 10
  · rw [if_pos h10, if_pos (by omega)]
    congr 1
    omega
  · rw [if_neg h10, if_neg (by omega), if_pos (by omega)]
    congr 1
    omega

theorem hexDigitsVal_append (acc : Nat) (l₁ l₂ : List Nat) :
    hexDigitsVal acc (l₁ ++ l₂) =
      match hexDigitsVal acc l₁ with
      | none => none
      | some a => hexDigitsVal a l₂ := by
  induction l₁ generalizing acc with
  | nil => simp [hexDigitsVal]
  | cons c rest ih =>
    simp only [List.cons_append, hexDigitsVal]
    cases hexVal c with
    | none => rfl
    | some d => exact ih (acc * 16 + d)

theorem from_str_radix_16_two {max h l : Nat} (hh : h < 16) (hl : l < 16)
    (hmax : 16 * h + l ≤ max) :
    from_str_radix_16 max [hexChar h, hexChar l] = some (16 * h + l) := by
  have hne : ¬ ([hexChar h, hexChar l].head? = some 0x2B) := by
    simp only [List.head?, Option.some.injEq]
    have := hexChar_ge h
    omega
  simp only [from_str_radix_16]
  rw [if_neg hne, if_neg (by simp)]
  simp only [hexDigitsVal, hexVal_hexChar hh, hexVal_hexChar hl]
  rw [if_pos (by omega)]
  congr 1
  ring

theorem hexN_length (k v : Nat) : (hexN k v).length = k := by
  induction k generalizing v with
  | zero => rfl
  | succ k ih => simp [hexN, ih]

theorem hexN_ascii (k v : Nat) : AsciiStr (hexN k v) := by
  induction k generalizing v with
  | zero => intro x hx; simp [hexN] at hx
  | succ k ih =>
    apply asciiStr_append (ih (v / 16))
    intro x hx
    simp at hx
    subst hx
    exact hexChar_ascii (Nat.mod_lt _ (by omega))

theorem hexN_ge (k v : Nat) : ∀ c ∈ hexN k v, 0x30 ≤ c := by
  induction k generalizing v with
  | zero => intro c hc; simp [hexN] at hc
  | succ k ih =>
    intro c hc
    simp only [hexN] at hc
    rcases List.mem_append.1 hc with h | h
    · exact ih (v / 16) c h
    · simp at h
      subst h
      exact hexChar_ge _

theorem hexDigitsVal_hexN {k v : Nat} (acc : Nat) (h : v < 16 ^ k) :
    hexDigitsVal acc (hexN k v) = some (acc * 16 ^ k + v) := by
  induction k generalizing v acc with
  | zero =>
    have : v = 0 := by simpa using h
    simp [hexN, hexDigitsVal, this]
  | succ k ih =>
    have hdiv : v / 16 < 16 ^ k := by
      rw [Nat.div_lt_iff_lt_mul (by omega)]
      calc v < 16 ^ (k + 1) := h
        _ = 16 ^ k * 16 := by ring
    rw [hexN, hexDigitsVal_append, ih acc hdiv]
    simp only [hexDigitsVal, hexVal_hexChar (Nat.mod_lt v (by omega))]
    congr 1
    have := Nat.div_add_mod v 16
    ring_nf
    omega

theorem from_str_radix_16_hexN {max v : Nat} (hk : v < 16 ^ 64) (hmax : v ≤ max) :
    from_str_radix_16 max (hexN 64 v) = some v := by
  unfold from_str_radix_16
  have hplus : (hexN 64 v).head? ≠ some 0x2B := by
    intro hc
    have hmem : (0x2B : Nat) ∈ hexN 64 v := by
      cases hx : hexN 64 v with
      | nil => rw [hx] at hc; simp at hc
      | cons c rest => rw [hx] at hc; simp at hc; simp [hx, hc]
    have := hexN_ge 64 v _ hmem
    omega
  rw [if_neg hplus]
  rw [if_neg (by intro hc; have := hexN_length 64 v; rw [hc] at this; simp at this)]
  rw [hexDigitsVal_hexN 0 hk]
  simp [hmax]

theorem parse_1167_shape (n : Nat) (body rest : List Nat) (h1 : 1 ≤ n) (h2 : n ≤ 20)
    (hlen : body.length = 2 * n) (hba : AsciiStr body) (hra : AsciiStr rest) :
    parse_1167_bytecode (bytecode1167 n body rest) =
      if 30 ≤ rest.length ∧ (rest.drop 22).take 8 = EIP_1167_BYTECODE_SUFFIX then
        .ok (bytes ("0x") ++ (List.replicate (40 - 2 * n) 0x30 ++ body))
      else .err (bytes ("Not an EIP-1167 bytecode")) := by
  have hHead : EIP_1167_BYTECODE_HEAD.length = 20 := by decide
  have hHeadA : AsciiStr EIP_1167_BYTECODE_HEAD := by decide
  have hSuffLen : EIP_1167_BYTECODE_SUFFIX.length = 8 := by decide
  have hpushA : AsciiStr [hexChar ((0x5f + n) / 16), hexChar ((0x5f + n) % 16)] := by
    intro x hx
    simp at hx
    rcases hx with h | h <;> subst h
    · exact hexChar_ascii (by omega)
    · exact hexChar_ascii (by omega)
  have hBassoc : bytecode1167 n body rest
      = EIP_1167_BYTECODE_HEAD ++ ([hexChar ((0x5f + n) / 16), hexChar ((0x5f + n) % 16)]
        ++ (body ++ rest)) := by
    simp [bytecode1167]
  have hBa : AsciiStr (bytecode1167 n body rest) := by
    rw [hBassoc]
    exact asciiStr_append hHeadA (asciiStr_append hpushA (asciiStr_append hba hra))
  have hBlen : (bytecode1167 n body rest).length = 22 + 2 * n + rest.length := by
    simp only [bytecode1167, List.length_append, hHead, hlen, List.length_cons,
      List.length_nil]
  have hstart : listStartsWith (bytecode1167 n body rest) EIP_1167_BYTECODE_HEAD = true := by
    unfold listStartsWith
    rw [hBassoc]
    simp [List.take_left]
  have hdrop20 : (bytecode1167 n body rest).drop 20
      = [hexChar ((0x5f + n) / 16), hexChar ((0x5f + n) % 16)] ++ (body ++ rest) := by
    rw [hBassoc]
    exact List.drop_left' hHead
  have hdrop22 : (bytecode1167 n body rest).drop 22 = body ++ rest := by
    rw [show (22 : Nat) = 20 + 2 from rfl, ← List.drop_drop, hdrop20]
    exact List.drop_left' rfl
  have hdropAddr : (bytecode1167 n body rest).drop (22 + n * 2) = rest := by
    rw [← List.drop_drop, hdrop22]
    exact List.drop_left' (by omega)
  have hs1 : rSlice (bytecode1167 n body rest) EIP_1167_BYTECODE_HEAD.length
      (EIP_1167_BYTECODE_HEAD.length + 2)
      = some [hexChar ((0x5f + n) / 16), hexChar ((0x5f + n) % 16)] := by
    rw [hHead]
    rw [rSlice_of_ascii hBa (by omega) (by rw [hBlen]; omega)]
    congr 1
  have hs2 : from_str_radix_16 255 [hexChar ((0x5f + n) / 16), hexChar ((0x5f + n) % 16)]
      = some (0x5f + n) := by
    have h3 := @from_str_radix_16_two 255 ((0x5f + n) / 16) ((0x5f + n) % 16)
      (by omega) (by omega) (by omega)
    rw [show (16 * ((0x5f + n) / 16) + (0x5f + n) % 16) = 0x5f + n from by omega] at h3
    exact h3
  have hs3 : rSlice (bytecode1167 n body rest) (EIP_1167_BYTECODE_HEAD.length + 2)
      (EIP_1167_BYTECODE_HEAD.length + 2 + n * 2) = some body := by
    rw [hHead]
    rw [rSlice_of_ascii hBa (by omega) (by rw [hBlen]; omega)]
    congr 1
    rw [show (20 + 2 : Nat) = 22 from rfl, hdrop22,
      show 22 + n * 2 - 22 = n * 2 from by omega]
    exact List.take_left' (by omega)
  simp only [parse_1167_bytecode]
  rw [if_neg (by simp [hstart])]
  rw [if_neg (by rw [hBlen, hHead]; omega)]
  rw [hs1]
  simp only []
  rw [hs2]
  simp only []
  rw [show ((0x5f + n : Nat) : Int) - 95 = (n : Int) from by push_cast; ring]
  rw [if_neg (by omega)]
  rw [Int.toNat_natCast]
  rw [if_neg (by rw [hBlen, hHead]; omega)]
  rw [hs3]
  simp only []
  by_cases hr : rest.length < 30
  · rw [if_pos (by rw [hBlen, hHead, hSuffLen]; omega)]
    rw [if_neg (by rintro ⟨h30, _⟩; omega)]
  · have hs4 : rSliceFrom (bytecode1167 n body rest)
        (EIP_1167_BYTECODE_HEAD.length + 2 + n * 2 + 22) = some (rest.drop 22) := by
      rw [hHead]
      rw [rSliceFrom_of_ascii hBa (by rw [hBlen]; omega)]
      congr 1
      rw [show (20 + 2 + n * 2 + 22 : Nat) = 22 + n * 2 + 22 from by ring, ← List.drop_drop,
        hdropAddr]
    rw [if_neg (by rw [hBlen, hHead, hSuffLen]; omega)]
    rw [hs4]
    simp only []
    have hsw : listStartsWith (rest.drop 22) EIP_1167_BYTECODE_SUFFIX
        = decide ((rest.drop 22).take 8 = EIP_1167_BYTECODE_SUFFIX) := by
      unfold listStartsWith
      rw [hSuffLen]
    rw [hsw]
    by_cases hsfx : (rest.drop 22).take 8 = EIP_1167_BYTECODE_SUFFIX
    · rw [if_neg (by simp [hsfx]), if_pos ⟨by omega, hsfx⟩]
      unfold leftPadZeros
      rw [charCount_of_ascii hba, hlen]
    · rw [if_pos (by simp [hsfx]), if_neg (by rintro ⟨h30x, hc⟩; exact hsfx hc)]

/-- Claim C5 (amended): for every push width 1 <= n <= 20 and every n-byte body
(2n hex characters), the canonical bytecode with the standard dispatch tail
parses to the body left-padded with zero characters to 40 hex digits; any
20-byte address round-trips; and the vanity bytecode embedding the 16-byte
body 10fd301be3200e67978e3cc67c962f48 with the push-16 opcode 0x6f parses to
0x0000000010fd301be3200e67978e3cc67c962f48.  (The claim's push-8 opcode 0x67
is corrected to the push-16 opcode 0x6f: with 0x67 the parser consumes only 8
bytes of the body, see the counterexample.) -/
theorem parse_1167_roundtrip :
    (∀ n body, 1 ≤ n → n ≤ 20 → body.length = 2 * n → AsciiStr body →
      parse_1167_bytecode (bytecode1167 n body (bytes ("5af43d82803e903d91602b57fd5bf3")))
        = .ok (bytes ("0x") ++ (List.replicate (40 - 2 * n) 0x30 ++ body))) ∧
    (∀ a, a.length = 40 → AsciiStr a →
      parse_1167_bytecode (bytes ("0x363d3d373d3d3d363d73") ++ a
          ++ bytes ("5af43d82803e903d91602b57fd5bf3"))
        = .ok (bytes ("0x") ++ a)) ∧
    parse_1167_bytecode
        (bytes ("0x363d3d373d3d3d363d6f10fd301be3200e67978e3cc67c962f485af43d82803e903d91602b57fd5bf3"))
      = .ok (bytes ("0x0000000010fd301be3200e67978e3cc67c962f48")) := by
  have hmain : ∀ n body, 1 ≤ n → n ≤ 20 → body.length = 2 * n → AsciiStr body →
      parse_1167_bytecode (bytecode1167 n body (bytes ("5af43d82803e903d91602b57fd5bf3")))
        = .ok (bytes ("0x") ++ (List.replicate (40 - 2 * n) 0x30 ++ body)) := by
    intro n body h1 h2 hlen hba
    rw [parse_1167_shape n body _ h1 h2 hlen hba (by decide)]
    rw [if_pos (by decide)]
  refine ⟨hmain, ?_, by decide⟩
  intro a ha haa
  have hpre : bytecode1167 20 a (bytes ("5af43d82803e903d91602b57fd5bf3"))
      = bytes ("0x363d3d373d3d3d363d73") ++ a ++ bytes ("5af43d82803e903d91602b57fd5bf3") := by
    unfold bytecode1167
    rw [show EIP_1167_BYTECODE_HEAD ++ [hexChar ((0x5f + 20) / 16), hexChar ((0x5f + 20) % 16)]
        = bytes ("0x363d3d373d3d3d363d73") from by decide]
  have := hmain 20 a (by omega) (by omega) (by omega) haa
  rw [hpre] at this
  rw [this]
  rfl

/-- Claim C5 counterexample: with the push-8 opcode 0x67 (as the claim states)
and the 16-byte body, the parser consumes only the first 8 body bytes: with
the standard tail it rejects outright, and with the tail offset adjusted so
the suffix lands where the parser looks, it succeeds but yields the 8-byte
vanity address 0x00000000000000000000000010fd301be3200e67, not the claimed
address. -/
theorem parse_1167_vanity_push8_counterexample :
    parse_1167_bytecode
        (bytes ("0x363d3d373d3d3d363d6710fd301be3200e67978e3cc67c962f485af43d82803e903d91602b57fd5bf3"))
      = .err (bytes ("Not an EIP-1167 bytecode")) ∧
    parse_1167_bytecode
        (bytes ("0x363d3d373d3d3d363d6710fd301be3200e67978e3cc67c962f485af43d57fd5bf3"))
      = .ok (bytes ("0x00000000000000000000000010fd301be3200e67")) ∧
    bytes ("0x00000000000000000000000010fd301be3200e67")
      ≠ bytes ("0x0000000010fd301be3200e67978e3cc67c962f48") :=
  ⟨by decide, by decide, by decide⟩

/-- Witness for the amended claim C5 at push width 1 with body ab. -/
theorem parse_1167_roundtrip_witness :
    parse_1167_bytecode (bytecode1167 1 (bytes ("ab")) (bytes ("5af43d82803e903d91602b57fd5bf3")))
      = .ok (bytes ("0x") ++ (List.replicate 38 0x30 ++ bytes ("ab"))) := by
  have h := parse_1167_roundtrip.1 1 (bytes ("ab")) (by decide) (by decide) (by decide) (by decide)
  rw [h]

/-- Claim C6: after extracting the push-width address body, the parser skips a
fixed 22 bytes of the input hex string (the dispatch tail, 22 hex characters)
and requires the bytes at that position to begin with 57fd5bf3; a bytecode in
which the suffix is absent (or out of reach) at that position is rejected
with the not-EIP-1167 error. -/
theorem parse_1167_suffix_skip22 (n : Nat) (body rest : List Nat) (h1 : 1 ≤ n) (h2 : n ≤ 20)
    (hlen : body.length = 2 * n) (hba : AsciiStr body) (hra : AsciiStr rest) :
    (30 ≤ rest.length → (rest.drop 22).take 8 = EIP_1167_BYTECODE_SUFFIX →
      parse_1167_bytecode (bytecode1167 n body rest)
        = .ok (bytes ("0x") ++ (List.replicate (40 - 2 * n) 0x30 ++ body))) ∧
    (¬ (30 ≤ rest.length ∧ (rest.drop 22).take 8 = EIP_1167_BYTECODE_SUFFIX) →
      parse_1167_bytecode (bytecode1167 n body rest)
        = .err (bytes ("Not an EIP-1167 bytecode"))) := by
  rw [parse_1167_shape n body rest h1 h2 hlen hba hra]
  constructor
  · intro ha hb
    rw [if_pos ⟨ha, hb⟩]
  · intro hc
    rw [if_neg hc]

/-- Witness for claim C6: a bytecode whose dispatch-tail region carries the
wrong suffix is rejected; one with the right suffix 22 characters after the
body is accepted. -/
theorem parse_1167_suffix_skip22_witness :
    parse_1167_bytecode
        (bytecode1167 20 (bytes ("bebebebebebebebebebebebebebebebebebebebe"))
          (bytes ("5af43d82803e903d91602b57fd5bf2")))
      = .err (bytes ("Not an EIP-1167 bytecode")) := by
  have h := (parse_1167_suffix_skip22 20 (bytes ("bebebebebebebebebebebebebebebebebebebebe"))
    (bytes ("5af43d82803e903d91602b57fd5bf2")) (by decide) (by decide) (by decide) (by decide)
    (by decide)).2 (by decide)
  exact h

/-- Claim C7 counterexample: on a two-word call-return blob, read_address
returns the entire blob unchanged rather than the low 20 bytes of the last
32-byte word. -/
theorem read_address_multiword_counterexample :
    read_address (bytes ("0x00000000000000000000000000000000000000000000000000000000000000000000000000000000000000001111111111111111111111111111111111111111"))
      = .ok (bytes ("0x00000000000000000000000000000000000000000000000000000000000000000000000000000000000000001111111111111111111111111111111111111111")) ∧
    read_address (bytes ("0x00000000000000000000000000000000000000000000000000000000000000000000000000000000000000001111111111111111111111111111111111111111"))
      ≠ .ok (bytes ("0x1111111111111111111111111111111111111111")) :=
  ⟨by decide, by decide⟩

/-- Claim C7 (amended): read_address extracts the low 20 bytes of the word
and rejects zero only when the blob is exactly one 32-byte word (66 hex
characters); every other non-empty ASCII blob different from 0x and from the
zero-address string is returned unchanged, blobs of several words included. -/
theorem read_address_spec :
    (∀ w, w.length = 64 → AsciiStr w →
      read_address (bytes ("0x") ++ w)
        = if bytes ("0x") ++ w.drop 24 = ZERO_ADDRESS then .err (bytes ("Empty address"))
          else .ok (bytes ("0x") ++ w.drop 24)) ∧
    (∀ v, AsciiStr v → v ≠ [] → v ≠ bytes ("0x") → v.length ≠ 66 → v ≠ ZERO_ADDRESS →
      read_address v = .ok v) := by
  constructor
  · intro w hw hwa
    have hlen : (bytes ("0x") ++ w).length = 66 := by
      rw [List.length_append, hw]
      decide
    have hva : AsciiStr (bytes ("0x") ++ w) := asciiStr_append (by decide) hwa
    have hdrop : List.drop 26 (bytes ("0x") ++ w) = w.drop 24 := by
      rw [show (26 : Nat) = 2 + 24 from rfl, ← List.drop_drop]
      rw [List.drop_left' (by decide)]
    simp only [read_address]
    rw [if_neg (by
      rintro (h | h)
      · have := congrArg List.length h
        rw [hlen] at this
        simp at this
      · have := congrArg List.length h
        rw [hlen] at this
        have h2 : (bytes ("0x")).length = 2 := by decide
        omega)]
    rw [if_pos hlen]
    rw [rSliceFrom_of_ascii hva (by omega)]
    rw [hdrop]
  · intro v hva h1 h2 h3 h4
    simp only [read_address]
    rw [if_neg (by rintro (h | h) <;> [exact h1 h; exact h2 h])]
    rw [if_neg h3]
    simp only []
    rw [if_neg h4]

/-- Witness for the amended claim C7: a one-word blob yields the low 20
bytes, a two-word blob is passed through. -/
theorem read_address_spec_witness :
    read_address (bytes ("0x")
        ++ bytes ("0000000000000000000000004bd844f72a8edd323056130a86fc624d0dbcf5b0"))
      = .ok (bytes ("0x")
        ++ (bytes ("0000000000000000000000004bd844f72a8edd323056130a86fc624d0dbcf5b0")).drop 24) := by
  have h := read_address_spec.1
    (bytes ("0000000000000000000000004bd844f72a8edd323056130a86fc624d0dbcf5b0"))
    (by decide) (by decide)
  rw [h, if_neg (by decide)]

theorem asciiStr_flatten {ws : List (List Nat)} (h : ∀ w ∈ ws, AsciiStr w) :
    AsciiStr ws.flatten := by
  induction ws with
  | nil => intro x hx; simp at hx
  | cons w rest ih =>
    simp only [List.flatten_cons]
    exact asciiStr_append (h w (by simp)) (ih (fun v hv => h v (by simp [hv])))

theorem read_address_array_loop_spec (ws : List (List Nat)) :
    ∀ pre : List Nat, AsciiStr pre → (∀ w ∈ ws, w.length = 64 ∧ AsciiStr w) →
    (pre ++ ws.flatten).length < W64 →
    read_address_array_loop (pre ++ ws.flatten) pre.length ws.length
      = .ok ((ws.map (fun w => bytes ("0x") ++ w.drop 24)).filter
          (fun x => decide (x ≠ ZERO_ADDRESS))) := by
  induction ws with
  | nil => intro pre hpre hws hlen; rfl
  | cons w rest ih =>
    intro pre hpre hws hlen
    have hw64 : w.length = 64 := (hws w (by simp)).1
    have hwa : AsciiStr w := (hws w (by simp)).2
    have hresta : AsciiStr rest.flatten :=
      asciiStr_flatten (fun v hv => (hws v (by simp [hv])).2)
    have hLa : AsciiStr (pre ++ (w :: rest).flatten) := by
      apply asciiStr_append hpre
      exact asciiStr_flatten (fun v hv => (hws v hv).2)
    have hLlen : pre.length + 64 ≤ (pre ++ (w :: rest).flatten).length := by
      simp [List.length_append, hw64]
    have hmod : w64 (pre.length + 64) = pre.length + 64 := by
      have hlt : pre.length + 64 < W64 := by
        have := hLlen
        omega
      exact Nat.mod_eq_of_lt hlt
    show read_address_array_loop (pre ++ (w :: rest).flatten) pre.length (rest.length + 1) = _
    rw [read_address_array_loop, hmod]
    rw [rSlice_of_ascii hLa (by omega) hLlen]
    have hword : (List.drop pre.length (pre ++ (w :: rest).flatten)).take (pre.length + 64 - pre.length)
        = w := by
      rw [show (w :: rest).flatten = w ++ rest.flatten from rfl]
      rw [show pre ++ (w ++ rest.flatten) = pre ++ (w ++ rest.flatten) from rfl]
      rw [List.drop_left' rfl]
      rw [show pre.length + 64 - pre.length = 64 from by omega]
      exact List.take_left' hw64
    rw [hword]
    simp only []
    rw [rSliceFrom_of_ascii hwa (by omega)]
    simp only []
    have hrec : read_address_array_loop (pre ++ (w :: rest).flatten) (pre.length + 64) rest.length
        = .ok ((rest.map (fun v => bytes ("0x") ++ v.drop 24)).filter
            (fun x => decide (x ≠ ZERO_ADDRESS))) := by
      have hassoc : pre ++ (w :: rest).flatten = (pre ++ w) ++ rest.flatten := by
        simp [List.append_assoc]
      have hplen : (pre ++ w).length = pre.length + 64 := by
        simp [List.length_append, hw64]
      rw [hassoc, ← hplen]
      exact ih (pre ++ w) (asciiStr_append hpre hwa)
        (fun v hv => hws v (by simp [hv]))
        (by rw [← hassoc]; exact hlen)
    rw [hrec]
    by_cases hz : bytes ("0x") ++ w.drop 24 = ZERO_ADDRESS
    · simp [hz]
    · simp [hz]

theorem startsWith0x (X : List Nat) : listStartsWith (bytes ("0x") ++ X) (bytes ("0x")) = true := by
  unfold listStartsWith
  simp [List.take_left]

theorem read_address_array_head (D : Nat) (X : List Nat) (hXa : AsciiStr X)
    (hX : ∃ T, X = hexN 64 D ++ T)
    (hDW : D * 2 + 64 < W64) :
    read_address_array (bytes ("0x") ++ X)
      = (if X.length < D * 2 + 64 then .err (bytes ("Invalid dynamic offset for address[]"))
         else
          match rSlice X (D * 2) (D * 2 + 64) with
          | none => .panic
          | some length_word =>
            match from_str_radix_16 (W64 - 1) length_word with
            | none => .err (bytes ("Invalid address[] length"))
            | some length =>
              if X.length < w64 (D * 2 + 64 + w64 (length * 64)) then
                .err (bytes ("Truncated address[] data"))
              else
                match read_address_array_loop X (D * 2 + 64) length with
                | .panic => .panic
                | .err e => .err e
                | .ok addresses =>
                  if addresses = [] then .err (bytes ("Empty address[]"))
                  else .ok addresses) := by
  obtain ⟨T, hT⟩ := hX
  have hXlen : X.length = 64 + T.length := by
    rw [hT]; simp [List.length_append, hexN_length]
  have h0xa : AsciiStr (bytes ("0x") ++ X) := asciiStr_append (by decide) hXa
  have hb2 : 2 ≤ (bytes ("0x") ++ X).length := by
    rw [List.length_append]
    have : (bytes ("0x")).length = 2 := by decide
    omega
  have hdrop2 : List.drop 2 (bytes ("0x") ++ X) = X := List.drop_left' (by decide)
  have h64guard : ¬ X.length < 64 := by omega
  have htake : List.take (64 - 0) (List.drop 0 X) = hexN 64 D := by
    rw [List.drop_zero, hT, show (64 - 0 : Nat) = 64 from rfl]
    exact List.take_left' (hexN_length 64 D)
  have hparseD : from_str_radix_16 (W64 - 1) (hexN 64 D) = some D :=
    from_str_radix_16_hexN
      (by have hle : W64 ≤ 16 ^ 64 := by norm_num [W64]
          omega)
      (by omega)
  have hw1 : w64 (D * 2) = D * 2 := Nat.mod_eq_of_lt (by omega)
  have hw2 : w64 (D * 2 + 64) = D * 2 + 64 := Nat.mod_eq_of_lt (by omega)
  conv_lhs =>
    simp only [read_address_array]
    rw [if_neg (by simp [startsWith0x])]
    rw [rSliceFrom_of_ascii h0xa hb2]
    rw [hdrop2]
    simp only []
    rw [if_neg h64guard]
    rw [rSlice_of_ascii hXa (by omega) (by omega)]
    rw [htake]
    simp only []
    rw [hparseD]
    simp only []
    rw [hw1, hw2]

theorem flatten_length_const {ws : List (List Nat)} (h : ∀ w ∈ ws, w.length = 64) :
    ws.flatten.length = 64 * ws.length := by
  induction ws with
  | nil => rfl
  | cons w rest ih =>
    simp only [List.flatten_cons, List.length_append, List.length_cons]
    rw [h w (by simp), ih (fun v hv => h v (by simp [hv]))]
    ring

theorem read_address_array_wellformed (D N : Nat) (filler : List Nat) (ws : List (List Nat))
    (hD : 32 ≤ D) (hf : filler.length = 2 * D - 64) (haf : AsciiStr filler)
    (hws : ∀ w ∈ ws, w.length = 64 ∧ AsciiStr w) (hN : ws.length = N)
    (hsmall : 2 * D + 64 + 64 * N < W64) :
    ((ws.map (fun w => bytes ("0x") ++ w.drop 24)).filter
        (fun x => decide (x ≠ ZERO_ADDRESS)) ≠ [] →
      read_address_array (bytes ("0x") ++ hexN 64 D ++ filler ++ hexN 64 N ++ ws.flatten)
        = .ok ((ws.map (fun w => bytes ("0x") ++ w.drop 24)).filter
            (fun x => decide (x ≠ ZERO_ADDRESS)))) ∧
    ((ws.map (fun w => bytes ("0x") ++ w.drop 24)).filter
        (fun x => decide (x ≠ ZERO_ADDRESS)) = [] →
      read_address_array (bytes ("0x") ++ hexN 64 D ++ filler ++ hexN 64 N ++ ws.flatten)
        = .err (bytes ("Empty address[]"))) ∧
    (∀ partWords : List Nat, AsciiStr partWords → partWords.length < 64 * N →
      read_address_array (bytes ("0x") ++ hexN 64 D ++ filler ++ hexN 64 N ++ partWords)
        = .err (bytes ("Truncated address[] data"))) ∧
    (∀ short : List Nat, AsciiStr short → short.length < 2 * D →
      read_address_array (bytes ("0x") ++ hexN 64 D ++ short)
        = .err (bytes ("Invalid dynamic offset for address[]"))) := by
  have hle16 : W64 ≤ 16 ^ 64 := by norm_num [W64]
  have hDa : AsciiStr (hexN 64 D) := hexN_ascii 64 D
  have hNa : AsciiStr (hexN 64 N) := hexN_ascii 64 N
  have hDlen : (hexN 64 D).length = 64 := hexN_length 64 D
  have hNlen : (hexN 64 N).length = 64 := hexN_length 64 N
  -- common reduction for a tail Z hanging after the length word
  have hcommon : ∀ Z : List Nat, AsciiStr Z →
      read_address_array (bytes ("0x") ++ hexN 64 D ++ filler ++ hexN 64 N ++ Z)
        = (if (hexN 64 D ++ (filler ++ (hexN 64 N ++ Z))).length
              < w64 (D * 2 + 64 + w64 (N * 64)) then
            .err (bytes ("Truncated address[] data"))
          else
            match read_address_array_loop (hexN 64 D ++ (filler ++ (hexN 64 N ++ Z)))
                (D * 2 + 64) N with
            | .panic => .panic
            | .err e => .err e
            | .ok addresses =>
              if addresses = [] then .err (bytes ("Empty address[]"))
              else .ok addresses) := by
    intro Z hZ
    have hXa : AsciiStr (hexN 64 D ++ (filler ++ (hexN 64 N ++ Z))) :=
      asciiStr_append hDa (asciiStr_append haf (asciiStr_append hNa hZ))
    have hXlen : (hexN 64 D ++ (filler ++ (hexN 64 N ++ Z))).length = 2 * D + 64 + Z.length := by
      simp only [List.length_append, hDlen, hNlen, hf]
      omega
    have hassoc : bytes ("0x") ++ hexN 64 D ++ filler ++ hexN 64 N ++ Z
        = bytes ("0x") ++ (hexN 64 D ++ (filler ++ (hexN 64 N ++ Z))) := by
      simp [List.append_assoc]
    rw [hassoc]
    rw [read_address_array_head D _ hXa ⟨_, rfl⟩ (by omega)]
    rw [if_neg (by omega)]
    have hXg : hexN 64 D ++ (filler ++ (hexN 64 N ++ Z))
        = (hexN 64 D ++ filler) ++ (hexN 64 N ++ Z) := by
      simp [List.append_assoc]
    have hslice : rSlice (hexN 64 D ++ (filler ++ (hexN 64 N ++ Z))) (D * 2) (D * 2 + 64)
        = some (hexN 64 N) := by
      rw [rSlice_of_ascii hXa (by omega) (by omega)]
      apply congrArg
      rw [hXg, List.drop_left' (by simp only [List.length_append, hDlen, hf]; omega)]
      rw [show D * 2 + 64 - D * 2 = 64 from by omega]
      exact List.take_left' hNlen
    rw [hslice]
    simp only []
    rw [from_str_radix_16_hexN (by omega) (by omega)]
  -- the loop applied to the word list
  have hloop : read_address_array_loop
      (hexN 64 D ++ (filler ++ (hexN 64 N ++ ws.flatten))) (D * 2 + 64) N
      = .ok ((ws.map (fun w => bytes ("0x") ++ w.drop 24)).filter
          (fun x => decide (x ≠ ZERO_ADDRESS))) := by
    have hpre : hexN 64 D ++ (filler ++ (hexN 64 N ++ ws.flatten))
        = ((hexN 64 D ++ filler) ++ hexN 64 N) ++ ws.flatten := by
      simp [List.append_assoc]
    have hprelen : ((hexN 64 D ++ filler) ++ hexN 64 N).length = D * 2 + 64 := by
      simp only [List.length_append, hDlen, hNlen, hf]
      omega
    have hflatlen : ws.flatten.length = 64 * N := by
      rw [flatten_length_const (fun w hw => (hws w hw).1), hN]
    have hWlen : (((hexN 64 D ++ filler) ++ hexN 64 N) ++ ws.flatten).length < W64 := by
      simp only [List.length_append, hDlen, hNlen, hf, hflatlen]
      omega
    have h := read_address_array_loop_spec ws ((hexN 64 D ++ filler) ++ hexN 64 N)
      (asciiStr_append (asciiStr_append hDa haf) hNa) hws hWlen
    rw [hprelen, hN] at h
    rw [hpre]
    exact h
  have hflatlen2 : ws.flatten.length = 64 * N := by
    rw [flatten_length_const (fun w hw => (hws w hw).1), hN]
  have hwN : w64 (N * 64) = N * 64 := Nat.mod_eq_of_lt (by omega)
  have hwNeed : w64 (D * 2 + 64 + w64 (N * 64)) = D * 2 + 64 + N * 64 := by
    rw [hwN]
    exact Nat.mod_eq_of_lt (by omega)
  have hXlen2 : (hexN 64 D ++ (filler ++ (hexN 64 N ++ ws.flatten))).length
      = 2 * D + 64 + 64 * N := by
    simp only [List.length_append, hDlen, hNlen, hf, hflatlen2]
    omega
  have hmain := hcommon ws.flatten (asciiStr_flatten (fun v hv => (hws v hv).2))
  rw [hwNeed] at hmain
  rw [if_neg (by rw [hXlen2]; omega)] at hmain
  rw [hloop] at hmain
  simp only [] at hmain
  refine ⟨?_, ?_, ?_, ?_⟩
  · intro hne
    rw [hmain, if_neg hne]
  · intro heq
    rw [hmain, if_pos heq]
  · intro pw hpwa hpwlen
    have h3 := hcommon pw hpwa
    rw [hwNeed] at h3
    rw [if_pos (by simp only [List.length_append, hDlen, hNlen, hf]; omega)] at h3
    exact h3
  · intro short hsa hslen
    have hXa : AsciiStr (hexN 64 D ++ short) := asciiStr_append hDa hsa
    have hassoc4 : bytes ("0x") ++ hexN 64 D ++ short = bytes ("0x") ++ (hexN 64 D ++ short) := by
      simp [List.append_assoc]
    rw [hassoc4, read_address_array_head D _ hXa ⟨_, rfl⟩ (by omega)]
    rw [if_pos (by simp only [List.length_append, hDlen]; omega)]

/-- Witness for claim C8 at offset 32, length 2, words holding one non-zero
address and the zero address: the zero entry is filtered out. -/
theorem read_address_array_wellformed_witness :
    read_address_array (bytes ("0x") ++ hexN 64 32 ++ [] ++ hexN 64 2
        ++ [bytes ("0000000000000000000000001111111111111111111111111111111111111111"),
            bytes ("0000000000000000000000000000000000000000000000000000000000000000")].flatten)
      = .ok [bytes ("0x1111111111111111111111111111111111111111")] := by
  have h := (read_address_array_wellformed 32 2 []
    [bytes ("0000000000000000000000001111111111111111111111111111111111111111"),
     bytes ("0000000000000000000000000000000000000000000000000000000000000000")]
    (by decide) (by decide) (by decide) (by decide) (by decide) (by decide)).1 (by decide)
  rw [h]
  decide

theorem read_address_no_panic {s : List Nat} (hsa : AsciiStr s) :
    read_address s ≠ PE.panic := by
  intro hc
  simp only [read_address] at hc
  by_cases h0 : s = [] ∨ s = bytes ("0x")
  · rw [if_pos h0] at hc
    exact PE.noConfusion hc
  · rw [if_neg h0] at hc
    by_cases h66 : s.length = 66
    · rw [if_pos h66] at hc
      rw [rSliceFrom_of_ascii hsa (by omega)] at hc
      simp only [] at hc
      by_cases hz : bytes ("0x") ++ List.drop 26 s = ZERO_ADDRESS
      · rw [if_pos hz] at hc
        exact PE.noConfusion hc
      · rw [if_neg hz] at hc
        exact PE.noConfusion hc
    · rw [if_neg h66] at hc
      simp only [] at hc
      by_cases hz : s = ZERO_ADDRESS
      · rw [if_pos hz] at hc
        exact PE.noConfusion hc
      · rw [if_neg hz] at hc
        exact PE.noConfusion hc

theorem parse_1167_no_panic {s : List Nat} (hsa : AsciiStr s) :
    parse_1167_bytecode s ≠ PE.panic := by
  intro hc
  simp only [parse_1167_bytecode] at hc
  have hHead : EIP_1167_BYTECODE_HEAD.length = 20 := by decide
  by_cases h0 : ¬ listStartsWith s EIP_1167_BYTECODE_HEAD = true
  · rw [if_pos h0] at hc
    exact PE.noConfusion hc
  · rw [if_neg h0] at hc
    by_cases hl1 : s.length < EIP_1167_BYTECODE_HEAD.length + 2
    · rw [if_pos hl1] at hc
      exact PE.noConfusion hc
    · rw [if_neg hl1] at hc
      rw [rSlice_of_ascii hsa (by omega) (by omega)] at hc
      simp only [] at hc
      rcases hp : from_str_radix_16 255
          ((s.drop EIP_1167_BYTECODE_HEAD.length).take
            (EIP_1167_BYTECODE_HEAD.length + 2 - EIP_1167_BYTECODE_HEAD.length)) with _ | push
      · rw [hp] at hc
        exact PE.noConfusion hc
      · rw [hp] at hc
        simp only [] at hc
        by_cases hrange : ((push : Int) - 0x5f < 1 ∨ 20 < (push : Int) - 0x5f)
        · rw [if_pos hrange] at hc
          exact PE.noConfusion hc
        · rw [if_neg hrange] at hc
          by_cases hl2 : s.length
              < EIP_1167_BYTECODE_HEAD.length + 2 + ((push : Int) - 0x5f).toNat * 2
          · rw [if_pos hl2] at hc
            exact PE.noConfusion hc
          · rw [if_neg hl2] at hc
            rw [rSlice_of_ascii hsa (by omega) (by omega)] at hc
            simp only [] at hc
            by_cases hl3 : s.length
                < EIP_1167_BYTECODE_HEAD.length + 2 + ((push : Int) - 0x5f).toNat * 2 + 22
                  + EIP_1167_BYTECODE_SUFFIX.length
            · rw [if_pos hl3] at hc
              exact PE.noConfusion hc
            · rw [if_neg hl3] at hc
              have hSuffLen : EIP_1167_BYTECODE_SUFFIX.length = 8 := by decide
              rw [rSliceFrom_of_ascii hsa (by omega)] at hc
              simp only [] at hc
              by_cases hsw : ¬ listStartsWith
                  (s.drop (EIP_1167_BYTECODE_HEAD.length + 2
                    + ((push : Int) - 0x5f).toNat * 2 + 22)) EIP_1167_BYTECODE_SUFFIX = true
              · rw [if_pos hsw] at hc
                exact PE.noConfusion hc
              · rw [if_neg hsw] at hc
                exact PE.noConfusion hc

/-- Claim C10 counterexample: read_address_array panics on an ASCII blob whose
64-hex-digit offset word holds 2^63 - 1: the doubled offset wraps usize to
2^64 - 2 and the length-word slice [2^64-2 .. 62] panics (in a debug build
the doubling itself already panics with overflow). -/
theorem decoder_panic_counterexample :
    read_address_array (bytes ("0x0000000000000000000000000000000000000000000000007fffffffffffffff"))
      = PE.panic := by decide

/-- Claim C10 (amended): parse_1167_bytecode and read_address never panic on
ASCII input; read_string and read_address_array can panic even on ASCII input
when a 64-hex-digit length or offset word is large enough to wrap the index
arithmetic; and non-ASCII characters can make the slicing of any of the
helpers panic at a non-character-boundary, shown here for parse_1167_bytecode
and read_address. -/
theorem decoder_totality :
    (∀ s, AsciiStr s → parse_1167_bytecode s ≠ PE.panic) ∧
    (∀ s, AsciiStr s → read_address s ≠ PE.panic) ∧
    read_string (bytes ("0x0000000000000000000000000000000000000000000000000000000000000020000000000000000000000000000000000000000000000000ffffffffffffffff"))
      = PE.panic ∧
    parse_1167_bytecode ((bytes ("0x363d3d373d3d3d363d")) ++ [0xE2, 0x82, 0xAC]) = PE.panic ∧
    read_address (List.replicate 25 0x61 ++ [0xE2, 0x82, 0xAC] ++ List.replicate 38 0x61)
      = PE.panic :=
  ⟨fun _ h => parse_1167_no_panic h, fun _ h => read_address_no_panic h,
   by decide, by decide, by decide⟩

/-- Witness for the amended claim C10 on a concrete ASCII input. -/
theorem decoder_totality_witness :
    parse_1167_bytecode (bytes ("0x363d3d37")) ≠ PE.panic :=
  decoder_totality.1 (bytes ("0x363d3d37")) (by decide)

theorem firstSuccess_cons (o : PRes (Except (List Nat) (Option ProxyResult)))
    (rest : List (PRes (Except (List Nat) (Option ProxyResult)))) :
    firstSuccess (o :: rest) = stepSel o (firstSuccess rest) := by
  cases o with
  | panic => rfl
  | ret v =>
    cases v with
    | error e => rfl
    | ok w =>
      cases w with
      | none => rfl
      | some r => rfl

theorem probeStep_fst (out : ProbeOut)
    (rest : Unit → PRes (Option ProxyResult) × List RequestArguments) :
    (probeStep out rest).fst = stepSel out.fst ((rest ()).fst) := by
  obtain ⟨o, t⟩ := out
  cases o with
  | panic => rfl
  | ret v =>
    cases v with
    | error e => rfl
    | ok w =>
      cases w with
      | none => rfl
      | some r => rfl

theorem probeStep_snd_mem {req : RequestArguments} (out : ProbeOut)
    (rest : Unit → PRes (Option ProxyResult) × List RequestArguments)
    (h : req ∈ (probeStep out rest).snd) : req ∈ out.snd ∨ req ∈ (rest ()).snd := by
  obtain ⟨o, t⟩ := out
  cases o with
  | panic => exact Or.inl h
  | ret v =>
    cases v with
    | error e => exact (List.mem_append.1 h).imp id id
    | ok w =>
      cases w with
      | none => exact (List.mem_append.1 h).imp id id
      | some r => exact Or.inl h

/-- The orchestrator's result is the first success among the ten probe
outcomes in order. -/
theorem detect_proxy_fst (env : Env) (a : List Nat) (tag? : Option (List Nat)) :
    (detect_proxy env a tag?).fst
      = firstSuccess (probeOutcomes env a (tag?.getD (bytes ("latest")))) := by
  simp only [detect_proxy, probeOutcomes, probeStep_fst, firstSuccess_cons]
  rfl

/-- Every request in the orchestrator's trace belongs to one of the ten
probes' traces. -/
theorem detect_proxy_snd_mem {env : Env} {a : List Nat} {tag? : Option (List Nat)}
    {req : RequestArguments} (h : req ∈ (detect_proxy env a tag?).snd) :
    req ∈ (detect_eip1167 env a (tag?.getD (bytes ("latest")))).snd ∨
    req ∈ (detect_eip1967_direct env a (tag?.getD (bytes ("latest")))).snd ∨
    req ∈ (detect_eip1967_beacon env a (tag?.getD (bytes ("latest")))).snd ∨
    req ∈ (detect_open_zeppelin env a (tag?.getD (bytes ("latest")))).snd ∨
    req ∈ (detect_eip1822 env a (tag?.getD (bytes ("latest")))).snd ∨
    req ∈ (detect_eip897 env a (tag?.getD (bytes ("latest")))).snd ∨
    req ∈ (detect_safe env a (tag?.getD (bytes ("latest")))).snd ∨
    req ∈ (detect_comptroller env a (tag?.getD (bytes ("latest")))).snd ∨
    req ∈ (detect_batch_relayer env a (tag?.getD (bytes ("latest")))).snd ∨
    req ∈ (detect_eip2535_diamond env a (tag?.getD (bytes ("latest")))).snd := by
  simp only [detect_proxy] at h
  rcases probeStep_snd_mem _ _ h with h | h
  · exact Or.inl h
  rcases probeStep_snd_mem _ _ h with h | h
  · exact Or.inr (Or.inl h)
  rcases probeStep_snd_mem _ _ h with h | h
  · exact Or.inr (Or.inr (Or.inl h))
  rcases probeStep_snd_mem _ _ h with h | h
  · exact Or.inr (Or.inr (Or.inr (Or.inl h)))
  rcases probeStep_snd_mem _ _ h with h | h
  · exact Or.inr (Or.inr (Or.inr (Or.inr (Or.inl h))))
  rcases probeStep_snd_mem _ _ h with h | h
  · exact Or.inr (Or.inr (Or.inr (Or.inr (Or.inr (Or.inl h)))))
  rcases probeStep_snd_mem _ _ h with h | h
  · exact Or.inr (Or.inr (Or.inr (Or.inr (Or.inr (Or.inr (Or.inl h))))))
  rcases probeStep_snd_mem _ _ h with h | h
  · exact Or.inr (Or.inr (Or.inr (Or.inr (Or.inr (Or.inr (Or.inr (Or.inl h)))))))
  rcases probeStep_snd_mem _ _ h with h | h
  · exact Or.inr (Or.inr (Or.inr (Or.inr (Or.inr (Or.inr (Or.inr (Or.inr (Or.inl h))))))))
  rcases probeStep_snd_mem _ _ h with h | h
  · exact Or.inr (Or.inr (Or.inr (Or.inr (Or.inr (Or.inr (Or.inr (Or.inr (Or.inr h))))))))
  simp at h

theorem read_address_ok_ne_zero {v a : List Nat} (h : read_address v = .ok a) :
    a ≠ ZERO_ADDRESS := by
  simp only [read_address] at h
  by_cases h0 : v = [] ∨ v = bytes ("0x")
  · rw [if_pos h0] at h
    exact PE.noConfusion h
  · rw [if_neg h0] at h
    by_cases h66 : v.length = 66
    · rw [if_pos h66] at h
      rcases hs : rSliceFrom v 26 with _ | t
      · rw [hs] at h
        exact PE.noConfusion h
      · rw [hs] at h
        simp only [] at h
        by_cases hz : bytes ("0x") ++ t = ZERO_ADDRESS
        · rw [if_pos hz] at h
          exact PE.noConfusion h
        · rw [if_neg hz] at h
          injection h with h1
          rw [← h1]
          exact hz
    · rw [if_neg h66] at h
      simp only [] at h
      by_cases hz : v = ZERO_ADDRESS
      · rw [if_pos hz] at h
        exact PE.noConfusion h
      · rw [if_neg hz] at h
        injection h with h1
        rw [← h1]
        exact hz

theorem read_address_array_loop_ne_zero {hex : List Nat} {cursor n : Nat} {l : List (List Nat)}
    (h : read_address_array_loop hex cursor n = .ok l) : ∀ x ∈ l, x ≠ ZERO_ADDRESS := by
  induction n generalizing cursor l with
  | zero =>
    simp only [read_address_array_loop] at h
    injection h with h1
    subst h1
    intro x hx
    simp at hx
  | succ n ih =>
    simp only [read_address_array_loop] at h
    rcases h1 : rSlice hex cursor (w64 (cursor + 64)) with _ | word
    · rw [h1] at h
      exact PE.noConfusion h
    · rw [h1] at h
      simp only [] at h
      rcases h2 : rSliceFrom word 24 with _ | low
      · rw [h2] at h
        exact PE.noConfusion h
      · rw [h2] at h
        simp only [] at h
        rcases h3 : read_address_array_loop hex (w64 (cursor + 64)) n with _ | e | rest
        · rw [h3] at h
          exact PE.noConfusion h
        · rw [h3] at h
          exact PE.noConfusion h
        · rw [h3] at h
          simp only [] at h
          injection h with h4
          subst h4
          intro x hx
          by_cases hz : bytes ("0x") ++ low = ZERO_ADDRESS
          · rw [if_pos hz] at hx
            exact ih h3 x hx
          · rw [if_neg hz] at hx
            rcases List.mem_cons.1 hx with rfl | hx2
            · exact hz
            · exact ih h3 x hx2

theorem read_address_array_ok {v : List Nat} {l : List (List Nat)}
    (h : read_address_array v = .ok l) : l ≠ [] ∧ ∀ x ∈ l, x ≠ ZERO_ADDRESS := by
  simp only [read_address_array] at h
  by_cases h0 : ¬ listStartsWith v (bytes ("0x")) = true
  · rw [if_pos h0] at h
    exact PE.noConfusion h
  · rw [if_neg h0] at h
    rcases h1 : rSliceFrom v 2 with _ | hex
    · rw [h1] at h
      exact PE.noConfusion h
    · rw [h1] at h
      simp only [] at h
      by_cases h2 : hex.length < 64
      · rw [if_pos h2] at h
        exact PE.noConfusion h
      · rw [if_neg h2] at h
        rcases h3 : rSlice hex 0 64 with _ | offset_word
        · rw [h3] at h
          exact PE.noConfusion h
        · rw [h3] at h
          simp only [] at h
          rcases h4 : from_str_radix_16 (W64 - 1) offset_word with _ | offset_bytes
          · rw [h4] at h
            exact PE.noConfusion h
          · rw [h4] at h
            simp only [] at h
            by_cases h5 : hex.length < w64 (w64 (offset_bytes * 2) + 64)
            · rw [if_pos h5] at h
              exact PE.noConfusion h
            · rw [if_neg h5] at h
              rcases h6 : rSlice hex (w64 (offset_bytes * 2)) (w64 (w64 (offset_bytes * 2) + 64))
                with _ | length_word
              · rw [h6] at h
                exact PE.noConfusion h
              · rw [h6] at h
                simp only [] at h
                rcases h7 : from_str_radix_16 (W64 - 1) length_word with _ | length
                · rw [h7] at h
                  exact PE.noConfusion h
                · rw [h7] at h
                  simp only [] at h
                  by_cases h8 : hex.length
                      < w64 (w64 (w64 (offset_bytes * 2) + 64) + w64 (length * 64))
                  · rw [if_pos h8] at h
                    exact PE.noConfusion h
                  · rw [if_neg h8] at h
                    rcases h9 : read_address_array_loop hex (w64 (w64 (offset_bytes * 2) + 64))
                        length with _ | e | addresses
                    · rw [h9] at h
                      exact PE.noConfusion h
                    · rw [h9] at h
                      exact PE.noConfusion h
                    · rw [h9] at h
                      simp only [] at h
                      by_cases hemp : addresses = []
                      · rw [if_pos hemp] at h
                        exact PE.noConfusion h
                      · rw [if_neg hemp] at h
                        injection h with h10
                        subst h10
                        exact ⟨hemp, read_address_array_loop_ne_zero h9⟩

theorem detect_eip1167_success {env : Env} {a tag : List Nat} {r : ProxyResult}
    (h : (detect_eip1167 env a tag).fst = .ret (.ok (some r))) :
    ∃ t, r = .Single t .Eip1167 true ∧ t ≠ ZERO_ADDRESS := by
  simp only [detect_eip1167] at h
  rcases h1 : env.rpc (getCodeReq a tag) with e | j
  · rw [h1] at h
    simp at h
  · rw [h1] at h
    simp only [] at h
    rcases h2 : j.asStr with _ | s
    · rw [h2] at h
      simp at h
    · rw [h2] at h
      simp only [] at h
      rcases h3 : parse_1167_bytecode s with _ | e | t0
      · rw [h3] at h
        simp at h
      · rw [h3] at h
        simp at h
      · rw [h3] at h
        simp only [] at h
        rcases h4 : read_address t0 with _ | e | t
        · rw [h4] at h
          simp at h
        · rw [h4] at h
          simp at h
        · rw [h4] at h
          simp only [PRes.ret.injEq, Except.ok.injEq, Option.some.injEq] at h
          exact ⟨t, h.symm, read_address_ok_ne_zero h4⟩

theorem storageSlotProbe_success {env : Env} {a slot tag : List Nat} {k : ProxyType}
    {r : ProxyResult}
    (h : (storageSlotProbe env a slot tag k).fst = .ret (.ok (some r))) :
    ∃ t, r = .Single t k false ∧ t ≠ ZERO_ADDRESS := by
  simp only [storageSlotProbe] at h
  rcases h1 : env.rpc (getStorageReq a slot tag) with e | j
  · rw [h1] at h
    simp at h
  · rw [h1] at h
    simp only [] at h
    rcases h2 : j.asStr with _ | s
    · rw [h2] at h
      simp at h
    · rw [h2] at h
      simp only [] at h
      rcases h3 : read_address s with _ | e | t
      · rw [h3] at h
        simp at h
      · rw [h3] at h
        simp at h
      · rw [h3] at h
        simp only [PRes.ret.injEq, Except.ok.injEq, Option.some.injEq] at h
        exact ⟨t, h.symm, read_address_ok_ne_zero h3⟩

theorem finishBeacon_success {impl_data : Json} {trace : List RequestArguments}
    {r : ProxyResult}
    (h : (detect_eip1967_beacon.finishBeacon impl_data trace).fst = .ret (.ok (some r))) :
    ∃ t, r = .Single t .Eip1967Beacon false ∧ t ≠ ZERO_ADDRESS := by
  simp only [detect_eip1967_beacon.finishBeacon] at h
  rcases h1 : impl_data.asStr with _ | s
  · rw [h1] at h
    simp at h
  · rw [h1] at h
    simp only [] at h
    rcases h2 : read_address s with _ | e | t
    · rw [h2] at h
      simp at h
    · rw [h2] at h
      simp at h
    · rw [h2] at h
      simp only [PRes.ret.injEq, Except.ok.injEq, Option.some.injEq] at h
      exact ⟨t, h.symm, read_address_ok_ne_zero h2⟩

theorem detect_eip1967_beacon_success {env : Env} {a tag : List Nat} {r : ProxyResult}
    (h : (detect_eip1967_beacon env a tag).fst = .ret (.ok (some r))) :
    ∃ t, r = .Single t .Eip1967Beacon false ∧ t ≠ ZERO_ADDRESS := by
  simp only [detect_eip1967_beacon] at h
  rcases h1 : env.rpc (getStorageReq a EIP_1967_BEACON_SLOT tag) with e | j
  · rw [h1] at h
    simp at h
  · rw [h1] at h
    simp only [] at h
    rcases h2 : j.asStr with _ | s
    · rw [h2] at h
      simp at h
    · rw [h2] at h
      simp only [] at h
      rcases h3 : read_address s with _ | e | b
      · rw [h3] at h
        simp at h
      · rw [h3] at h
        simp at h
      · rw [h3] at h
        simp only [] at h
        rcases h4 : env.rpc (callReq b EIP_1967_BEACON_IMPLEMENTATION tag) with e | impl
        · rw [h4] at h
          simp only [] at h
          rcases h5 : env.rpc (callReq b EIP_1967_BEACON_CHILD_IMPLEMENTATION tag) with e2 | impl2
          · rw [h5] at h
            simp at h
          · rw [h5] at h
            simp only [] at h
            exact finishBeacon_success h
        · rw [h4] at h
          simp only [] at h
          exact finishBeacon_success h

theorem detect_eip897_success {env : Env} {a tag : List Nat} {r : ProxyResult}
    (h : (detect_eip897 env a tag).fst = .ret (.ok (some r))) :
    ∃ t i, r = .Single t .Eip897 i ∧ t ≠ ZERO_ADDRESS := by
  simp only [detect_eip897] at h
  rcases h1 : env.rpc (callReq a EIP_897_IMPLEMENTATION tag) with e | j
  · rw [h1] at h
    simp at h
  · rw [h1] at h
    simp only [] at h
    rcases h2 : j.asStr with _ | s
    · rw [h2] at h
      simp at h
    · rw [h2] at h
      simp only [] at h
      rcases h3 : read_address s with _ | e | t
      · rw [h3] at h
        simp at h
      · rw [h3] at h
        simp at h
      · rw [h3] at h
        simp only [] at h
        rcases h4 : env.rpc (callReq a EIP_897_PROXY_TYPE tag) with e | v
        · rw [h4] at h
          simp at h
        · rw [h4] at h
          simp only [PRes.ret.injEq, Except.ok.injEq, Option.some.injEq] at h
          exact ⟨t, _, h.symm, read_address_ok_ne_zero h3⟩

theorem detect_safe_success {env : Env} {a tag : List Nat} {r : ProxyResult}
    (h : (detect_safe env a tag).fst = .ret (.ok (some r))) :
    ∃ t, r = .Single t .Safe false ∧ t ≠ ZERO_ADDRESS := by
  simp only [detect_safe] at h
  rcases h1 : env.rpc (callReq a SAFE_MASTER_COPY tag) with e | j
  · rw [h1] at h
    simp at h
  · rw [h1] at h
    simp only [] at h
    rcases h2 : j.asStr with _ | s
    · rw [h2] at h
      simp at h
    · rw [h2] at h
      simp only [] at h
      rcases h3 : read_address s with _ | e | t
      · rw [h3] at h
        simp at h
      · rw [h3] at h
        simp at h
      · rw [h3] at h
        simp only [PRes.ret.injEq, Except.ok.injEq, Option.some.injEq] at h
        exact ⟨t, h.symm, read_address_ok_ne_zero h3⟩

theorem detect_comptroller_success {env : Env} {a tag : List Nat} {r : ProxyResult}
    (h : (detect_comptroller env a tag).fst = .ret (.ok (some r))) :
    ∃ t, r = .Single t .Comptroller false ∧ t ≠ ZERO_ADDRESS := by
  simp only [detect_comptroller] at h
  rcases h1 : env.rpc (callReq a COMPTROLLER_IMPLEMENTATION tag) with e | j
  · rw [h1] at h
    simp at h
  · rw [h1] at h
    simp only [] at h
    rcases h2 : j.asStr with _ | s
    · rw [h2] at h
      simp at h
    · rw [h2] at h
      simp only [] at h
      rcases h3 : read_address s with _ | e | t
      · rw [h3] at h
        simp at h
      · rw [h3] at h
        simp at h
      · rw [h3] at h
        simp only [PRes.ret.injEq, Except.ok.injEq, Option.some.injEq] at h
        exact ⟨t, h.symm, read_address_ok_ne_zero h3⟩

theorem detect_batch_relayer_success {env : Env} {a tag : List Nat} {r : ProxyResult}
    (h : (detect_batch_relayer env a tag).fst = .ret (.ok (some r))) :
    ∃ t, r = .Single t .BatchRelayer true ∧ t ≠ ZERO_ADDRESS := by
  simp only [detect_batch_relayer] at h
  rcases h1 : env.rpc (callReq a BATCH_RELAYER_VERSION tag) with e | j
  · rw [h1] at h
    simp at h
  · rw [h1] at h
    simp only [] at h
    rcases h2 : j.asStr with _ | s
    · rw [h2] at h
      simp at h
    · rw [h2] at h
      simp only [] at h
      rcases h3 : read_string s with _ | e | dec
      · rw [h3] at h
        simp at h
      · rw [h3] at h
        simp at h
      · rw [h3] at h
        simp only [] at h
        rcases h4 : env.fromStr dec with e | vj
        · rw [h4] at h
          simp at h
        · rw [h4] at h
          simp only [] at h
          by_cases h5 : (vj.index (bytes ("name"))).asStr ≠ some (bytes ("BatchRelayer"))
          · rw [if_pos h5] at h
            simp at h
          · rw [if_neg h5] at h
            rcases h6 : env.rpc (callReq a BATCH_RELAYER_GET_LIBRARY tag) with e | lib
            · rw [h6] at h
              simp at h
            · rw [h6] at h
              simp only [] at h
              rcases h7 : lib.asStr with _ | ls
              · rw [h7] at h
                simp at h
              · rw [h7] at h
                simp only [] at h
                rcases h8 : read_address ls with _ | e | t
                · rw [h8] at h
                  simp at h
                · rw [h8] at h
                  simp at h
                · rw [h8] at h
                  simp only [PRes.ret.injEq, Except.ok.injEq, Option.some.injEq] at h
                  exact ⟨t, h.symm, read_address_ok_ne_zero h8⟩

theorem detect_eip2535_diamond_success {env : Env} {a tag : List Nat} {r : ProxyResult}
    (h : (detect_eip2535_diamond env a tag).fst = .ret (.ok (some r))) :
    ∃ l, r = .Diamond l .Eip2535Diamond false ∧ l ≠ [] ∧ ∀ x ∈ l, x ≠ ZERO_ADDRESS := by
  simp only [detect_eip2535_diamond] at h
  rcases h1 : env.rpc (callReq a EIP_2535_FACET_ADDRESSES tag) with e | j
  · rw [h1] at h
    simp at h
  · rw [h1] at h
    simp only [] at h
    rcases h2 : j.asStr with _ | s
    · rw [h2] at h
      simp at h
    · rw [h2] at h
      simp only [] at h
      rcases h3 : read_address_array s with _ | e | l
      · rw [h3] at h
        simp at h
      · rw [h3] at h
        simp at h
      · rw [h3] at h
        simp only [PRes.ret.injEq, Except.ok.injEq, Option.some.injEq] at h
        obtain ⟨hne, hall⟩ := read_address_array_ok h3
        exact ⟨l, h.symm, hne, hall⟩

theorem stepSel_failed {o : PRes (Except (List Nat) (Option ProxyResult))}
    {k : PRes (Option ProxyResult)} (h : probeFailed o = true) : stepSel o k = k := by
  cases o with
  | panic => simp [probeFailed] at h
  | ret v =>
    cases v with
    | error e => rfl
    | ok w =>
      cases w with
      | none => rfl
      | some r => simp [probeFailed] at h

theorem firstSuccess_eq_some {l : List (PRes (Except (List Nat) (Option ProxyResult)))}
    {r : ProxyResult} (h : firstSuccess l = .ret (some r)) :
    ∃ o ∈ l, o = .ret (.ok (some r)) := by
  induction l with
  | nil => simp [firstSuccess] at h
  | cons o rest ih =>
    rw [firstSuccess_cons] at h
    cases o with
    | panic => simp [stepSel] at h
    | ret v =>
      cases v with
      | error e =>
        simp only [stepSel] at h
        obtain ⟨o2, ho2, he2⟩ := ih h
        exact ⟨o2, by simp [ho2], he2⟩
      | ok w =>
        cases w with
        | none =>
          simp only [stepSel] at h
          obtain ⟨o2, ho2, he2⟩ := ih h
          exact ⟨o2, by simp [ho2], he2⟩
        | some r2 =>
          simp only [stepSel, PRes.ret.injEq, Option.some.injEq] at h
          exact ⟨.ret (.ok (some r2)), by simp, by rw [h]⟩

theorem firstSuccess_all_failed {l : List (PRes (Except (List Nat) (Option ProxyResult)))}
    (h : ∀ o ∈ l, probeFailed o = true) : firstSuccess l = .ret none := by
  induction l with
  | nil => rfl
  | cons o rest ih =>
    rw [firstSuccess_cons, stepSel_failed (h o (by simp))]
    exact ih (fun o2 ho2 => h o2 (by simp [ho2]))

theorem firstSuccess_at {l : List (PRes (Except (List Nat) (Option ProxyResult)))}
    {i : Nat} {r : ProxyResult}
    (hfail : ∀ j, j < i → probeFailed (l.getD j (.ret (.ok none))) = true)
    (hsucc : l.getD i (.ret (.ok none)) = .ret (.ok (some r))) :
    firstSuccess l = .ret (some r) := by
  induction l generalizing i with
  | nil => simp [List.getD] at hsucc
  | cons o rest ih =>
    rw [firstSuccess_cons]
    cases i with
    | zero =>
      rw [List.getD_cons_zero] at hsucc
      rw [hsucc]
      rfl
    | succ i =>
      have h0 := hfail 0 (by omega)
      rw [List.getD_cons_zero] at h0
      rw [stepSel_failed h0]
      have hs2 : List.getD rest i (.ret (.ok none)) = .ret (.ok (some r)) := by
        rwa [List.getD_cons_succ] at hsucc
      have hf2 : ∀ j, j < i → probeFailed (rest.getD j (.ret (.ok none))) = true := by
        intro j hj
        have := hfail (j + 1) (by omega)
        rwa [List.getD_cons_succ] at this
      exact ih hf2 hs2

/-- Kind and non-zero-target shape of any result the orchestrator returns. -/
theorem detect_proxy_success_shape {env : Env} {a : List Nat} {tag? : Option (List Nat)}
    {r : ProxyResult} (h : (detect_proxy env a tag?).fst = .ret (some r)) :
    (∃ t k i, r = .Single t k i ∧ t ≠ ZERO_ADDRESS) ∨
    (∃ l k i, r = .Diamond l k i ∧ l ≠ [] ∧ ∀ x ∈ l, x ≠ ZERO_ADDRESS) := by
  rw [detect_proxy_fst] at h
  obtain ⟨o, ho, he⟩ := firstSuccess_eq_some h
  simp only [probeOutcomes, List.mem_cons, List.not_mem_nil, or_false] at ho
  rcases ho with rfl | rfl | rfl | rfl | rfl | rfl | rfl | rfl | rfl | rfl
  · obtain ⟨t, ht, hz⟩ := detect_eip1167_success he
    exact Or.inl ⟨t, _, _, ht, hz⟩
  · obtain ⟨t, ht, hz⟩ := storageSlotProbe_success he
    exact Or.inl ⟨t, _, _, ht, hz⟩
  · obtain ⟨t, ht, hz⟩ := detect_eip1967_beacon_success he
    exact Or.inl ⟨t, _, _, ht, hz⟩
  · obtain ⟨t, ht, hz⟩ := storageSlotProbe_success he
    exact Or.inl ⟨t, _, _, ht, hz⟩
  · obtain ⟨t, ht, hz⟩ := storageSlotProbe_success he
    exact Or.inl ⟨t, _, _, ht, hz⟩
  · obtain ⟨t, i, ht, hz⟩ := detect_eip897_success he
    exact Or.inl ⟨t, _, _, ht, hz⟩
  · obtain ⟨t, ht, hz⟩ := detect_safe_success he
    exact Or.inl ⟨t, _, _, ht, hz⟩
  · obtain ⟨t, ht, hz⟩ := detect_comptroller_success he
    exact Or.inl ⟨t, _, _, ht, hz⟩
  · obtain ⟨t, ht, hz⟩ := detect_batch_relayer_success he
    exact Or.inl ⟨t, _, _, ht, hz⟩
  · obtain ⟨l, hl, hne, hall⟩ := detect_eip2535_diamond_success he
    exact Or.inr ⟨l, _, _, hl, hne, hall⟩

theorem reqCallData_callReq (x d t : List Nat) : reqCallData (callReq x d t) = some d := by
  simp only [reqCallData, callReq, jsonLookup]
  rw [if_neg (by decide)]
  simp [Json.asStr]

theorem detect_eip1167_snd (env : Env) (a tag : List Nat) :
    (detect_eip1167 env a tag).snd = [getCodeReq a tag] := by
  simp only [detect_eip1167]
  rcases env.rpc (getCodeReq a tag) with e | j
  · rfl
  · simp only []
    rcases j.asStr with _ | s
    · rfl
    · simp only []
      rcases parse_1167_bytecode s with _ | e | t0
      · rfl
      · rfl
      · simp only []
        rcases read_address t0 with _ | e | t <;> rfl

theorem storageSlotProbe_snd (env : Env) (a slot tag : List Nat) (k : ProxyType) :
    (storageSlotProbe env a slot tag k).snd = [getStorageReq a slot tag] := by
  simp only [storageSlotProbe]
  rcases env.rpc (getStorageReq a slot tag) with e | j
  · rfl
  · simp only []
    rcases j.asStr with _ | s
    · rfl
    · simp only []
      rcases read_address s with _ | e | t <;> rfl

theorem finishBeacon_snd (impl_data : Json) (trace : List RequestArguments) :
    (detect_eip1967_beacon.finishBeacon impl_data trace).snd = trace := by
  simp only [detect_eip1967_beacon.finishBeacon]
  rcases impl_data.asStr with _ | s
  · rfl
  · simp only []
    rcases read_address s with _ | e | t <;> rfl

theorem detect_eip1967_beacon_snd_mem {env : Env} {a tag : List Nat} {req : RequestArguments}
    (h : req ∈ (detect_eip1967_beacon env a tag).snd) :
    req = getStorageReq a EIP_1967_BEACON_SLOT tag ∨
    (∃ b, req = callReq b EIP_1967_BEACON_IMPLEMENTATION tag) ∨
    (∃ b, req = callReq b EIP_1967_BEACON_CHILD_IMPLEMENTATION tag) := by
  simp only [detect_eip1967_beacon] at h
  rcases h1 : env.rpc (getStorageReq a EIP_1967_BEACON_SLOT tag) with e | j
  · rw [h1] at h
    simp at h
    exact Or.inl h
  · rw [h1] at h
    simp only [] at h
    rcases h2 : j.asStr with _ | s
    · rw [h2] at h
      simp at h
      exact Or.inl h
    · rw [h2] at h
      simp only [] at h
      rcases h3 : read_address s with _ | e | b
      · rw [h3] at h
        simp at h
        exact Or.inl h
      · rw [h3] at h
        simp at h
        exact Or.inl h
      · rw [h3] at h
        simp only [] at h
        rcases h4 : env.rpc (callReq b EIP_1967_BEACON_IMPLEMENTATION tag) with e | impl
        · rw [h4] at h
          simp only [] at h
          rcases h5 : env.rpc (callReq b EIP_1967_BEACON_CHILD_IMPLEMENTATION tag) with e2 | impl2
          · rw [h5] at h
            simp at h
            rcases h with h | h | h
            · exact Or.inl h
            · exact Or.inr (Or.inl ⟨b, h⟩)
            · exact Or.inr (Or.inr ⟨b, h⟩)
          · rw [h5] at h
            simp only [] at h
            rw [finishBeacon_snd] at h
            simp at h
            rcases h with h | h | h
            · exact Or.inl h
            · exact Or.inr (Or.inl ⟨b, h⟩)
            · exact Or.inr (Or.inr ⟨b, h⟩)
        · rw [h4] at h
          simp only [] at h
          rw [finishBeacon_snd] at h
          simp at h
          rcases h with h | h
          · exact Or.inl h
          · exact Or.inr (Or.inl ⟨b, h⟩)

theorem detect_eip897_snd_mem {env : Env} {a tag : List Nat} {req : RequestArguments}
    (h : req ∈ (detect_eip897 env a tag).snd) :
    req = callReq a EIP_897_IMPLEMENTATION tag ∨ req = callReq a EIP_897_PROXY_TYPE tag := by
  simp only [detect_eip897] at h
  rcases h1 : env.rpc (callReq a EIP_897_IMPLEMENTATION tag) with e | j
  · rw [h1] at h
    simp at h
    exact Or.inl h
  · rw [h1] at h
    simp only [] at h
    rcases h2 : j.asStr with _ | s
    · rw [h2] at h
      simp at h
      exact Or.inl h
    · rw [h2] at h
      simp only [] at h
      rcases h3 : read_address s with _ | e | t
      · rw [h3] at h
        simp at h
        exact Or.inl h
      · rw [h3] at h
        simp at h
        exact Or.inl h
      · rw [h3] at h
        simp only [] at h
        rcases h4 : env.rpc (callReq a EIP_897_PROXY_TYPE tag) with e | v <;>
          rw [h4] at h <;> simpa using h

theorem detect_safe_snd (env : Env) (a tag : List Nat) :
    (detect_safe env a tag).snd = [callReq a SAFE_MASTER_COPY tag] := by
  simp only [detect_safe]
  rcases env.rpc (callReq a SAFE_MASTER_COPY tag) with e | j
  · rfl
  · simp only []
    rcases j.asStr with _ | s
    · rfl
    · simp only []
      rcases read_address s with _ | e | t <;> rfl

theorem detect_comptroller_snd (env : Env) (a tag : List Nat) :
    (detect_comptroller env a tag).snd = [callReq a COMPTROLLER_IMPLEMENTATION tag] := by
  simp only [detect_comptroller]
  rcases env.rpc (callReq a COMPTROLLER_IMPLEMENTATION tag) with e | j
  · rfl
  · simp only []
    rcases j.asStr with _ | s
    · rfl
    · simp only []
      rcases read_address s with _ | e | t <;> rfl

theorem detect_batch_relayer_snd_mem {env : Env} {a tag : List Nat} {req : RequestArguments}
    (h : req ∈ (detect_batch_relayer env a tag).snd) :
    req = callReq a BATCH_RELAYER_VERSION tag ∨ req = callReq a BATCH_RELAYER_GET_LIBRARY tag := by
  simp only [detect_batch_relayer] at h
  rcases h1 : env.rpc (callReq a BATCH_RELAYER_VERSION tag) with e | j
  · rw [h1] at h
    simp at h
    exact Or.inl h
  · rw [h1] at h
    simp only [] at h
    rcases h2 : j.asStr with _ | s
    · rw [h2] at h
      simp at h
      exact Or.inl h
    · rw [h2] at h
      simp only [] at h
      rcases h3 : read_string s with _ | e | dec
      · rw [h3] at h
        simp at h
        exact Or.inl h
      · rw [h3] at h
        simp at h
        exact Or.inl h
      · rw [h3] at h
        simp only [] at h
        rcases h4 : env.fromStr dec with e | vj
        · rw [h4] at h
          simp at h
          exact Or.inl h
        · rw [h4] at h
          simp only [] at h
          by_cases h5 : (vj.index (bytes ("name"))).asStr ≠ some (bytes ("BatchRelayer"))
          · rw [if_pos h5] at h
            simp at h
            exact Or.inl h
          · rw [if_neg h5] at h
            rcases h6 : env.rpc (callReq a BATCH_RELAYER_GET_LIBRARY tag) with e | lib
            · rw [h6] at h
              simpa using h
            · rw [h6] at h
              simp only [] at h
              rcases h7 : lib.asStr with _ | ls
              · rw [h7] at h
                simpa using h
              · rw [h7] at h
                simp only [] at h
                rcases h8 : read_address ls with _ | e | t <;> rw [h8] at h <;> simpa using h

theorem detect_eip2535_diamond_snd (env : Env) (a tag : List Nat) :
    (detect_eip2535_diamond env a tag).snd = [callReq a EIP_2535_FACET_ADDRESSES tag] := by
  simp only [detect_eip2535_diamond]
  rcases env.rpc (callReq a EIP_2535_FACET_ADDRESSES tag) with e | j
  · rfl
  · simp only []
    rcases j.asStr with _ | s
    · rfl
    · simp only []
      rcases read_address_array s with _ | e | t <;> rfl

/-- Claim C1 (amended): detect_proxy evaluates the ten probes in the source's
fixed order and returns the first success (None after all ten fail, a probe
panic propagating); whenever the EIP-1167 probe fails and the
EIP-1967-direct probe succeeds, the returned result is the EIP-1967-direct
one — even when EIP-897 would also succeed.  (The claim's unconditional form
is refuted by the counterexample, where the EIP-1167 probe also matches and
wins.) -/
theorem detect_proxy_probe_order (env : Env) (a : List Nat) (tag? : Option (List Nat)) :
    (detect_proxy env a tag?).fst
      = firstSuccess (probeOutcomes env a (tag?.getD (bytes ("latest")))) ∧
    (∀ e r, (detect_eip1167 env a (tag?.getD (bytes ("latest")))).fst = .ret (.error e) →
      (detect_eip1967_direct env a (tag?.getD (bytes ("latest")))).fst = .ret (.ok (some r)) →
      (detect_proxy env a tag?).fst = .ret (some r) ∧
        ∃ t, r = .Single t .Eip1967Direct false) := by
  refine ⟨detect_proxy_fst env a tag?, fun e r h1 h2 => ⟨?_, ?_⟩⟩
  · rw [detect_proxy_fst]
    simp only [probeOutcomes, firstSuccess_cons, h1, h2, stepSel]
  · obtain ⟨t, ht, h0⟩ := storageSlotProbe_success h2
    exact ⟨t, ht⟩

/-- Claim C1 counterexample: with envAllMatch both the EIP-1967-direct and
the EIP-897 probe succeed, yet detect_proxy returns the EIP-1167 result,
because that probe comes first and also matches. -/
theorem detect_proxy_probe_order_counterexample :
    (detect_eip1967_direct envAllMatch addrA (bytes ("latest"))).fst
      = .ret (.ok (some (.Single target11 .Eip1967Direct false))) ∧
    (detect_eip897 envAllMatch addrA (bytes ("latest"))).fst
      = .ret (.ok (some (.Single target11 .Eip897 false))) ∧
    (detect_proxy envAllMatch addrA none).fst
      = .ret (some (.Single targetBE .Eip1167 true)) ∧
    ProxyType.Eip1167 ≠ ProxyType.Eip1967Direct :=
  ⟨by decide, by decide, by decide, by decide⟩

/-- Witness for the amended claim C1: EIP-1167 fails (transport error on
eth_getCode), EIP-1967-direct succeeds and wins. -/
theorem detect_proxy_probe_order_witness :
    (detect_proxy envCodeDown addrA none).fst
      = .ret (some (.Single target11 .Eip1967Direct false)) :=
  ((detect_proxy_probe_order envCodeDown addrA none).2 (bytes ("connection reset"))
    (.Single target11 .Eip1967Direct false) (by decide) (by decide)).1

/-- Claim C2: for every address, block tag and RPC model, a Single result
carries a target different from the zero address, and a Diamond result a
non-empty list of targets all different from the zero address. -/
theorem detect_proxy_nonzero (env : Env) (a : List Nat) (tag? : Option (List Nat)) :
    (∀ t k i, (detect_proxy env a tag?).fst = .ret (some (.Single t k i)) →
      t ≠ ZERO_ADDRESS) ∧
    (∀ l k i, (detect_proxy env a tag?).fst = .ret (some (.Diamond l k i)) →
      l ≠ [] ∧ ∀ x ∈ l, x ≠ ZERO_ADDRESS) := by
  constructor
  · intro t k i h
    rcases detect_proxy_success_shape h with ⟨t2, k2, i2, he, hz⟩ | ⟨l2, k2, i2, he, h0⟩
    · injection he with ht hk hi
      rw [ht]
      exact hz
    · exact ProxyResult.noConfusion he
  · intro l k i h
    rcases detect_proxy_success_shape h with ⟨t2, k2, i2, he, hz⟩ | ⟨l2, k2, i2, he, hne, hall⟩
    · exact ProxyResult.noConfusion he
    · injection he with hl hk hi
      rw [hl]
      exact ⟨hne, hall⟩

/-- Witness for claim C2 at a concrete model returning a Single result. -/
theorem detect_proxy_nonzero_witness : targetBE ≠ ZERO_ADDRESS :=
  (detect_proxy_nonzero envAllMatch addrA none).1 targetBE .Eip1167 true (by decide)

/-- Claim C3 (amended): the orchestrator returns Some r or None — except
that a decoder panic on a malformed (for example non-ASCII) RPC response
propagates, see the counterexample — and a transport failure or pattern
mismatch in probe N makes only probe N fail: if every earlier probe failed
and probe i succeeds with r, the result is Some r; if all ten fail, the
result is None. -/
theorem detect_proxy_fall_through (env : Env) (a : List Nat) (tag? : Option (List Nat)) :
    ((∀ o ∈ probeOutcomes env a (tag?.getD (bytes ("latest"))), probeFailed o = true) →
      (detect_proxy env a tag?).fst = .ret none) ∧
    (∀ i r,
      (∀ j, j < i → probeFailed ((probeOutcomes env a (tag?.getD (bytes ("latest")))).getD j
        (.ret (.ok none))) = true) →
      (probeOutcomes env a (tag?.getD (bytes ("latest")))).getD i (.ret (.ok none))
        = .ret (.ok (some r)) →
      (detect_proxy env a tag?).fst = .ret (some r)) := by
  constructor
  · intro hall
    rw [detect_proxy_fst]
    exact firstSuccess_all_failed hall
  · intro i r hfail hsucc
    rw [detect_proxy_fst]
    exact firstSuccess_at hfail hsucc

/-- Claim C3 counterexample: a 66-byte non-ASCII storage response makes
read_address panic inside the EIP-1967-direct probe and the panic propagates
out of detect_proxy: the outcome is neither Some nor None. -/
theorem detect_proxy_fall_through_counterexample :
    (detect_proxy envNonAscii addrA none).fst = PRes.panic := by decide

/-- Witness for the amended claim C3: all ten probes fail on a dead
transport and the detector returns None. -/
theorem detect_proxy_fall_through_witness :
    (detect_proxy envAllErr addrA none).fst = .ret none :=
  (detect_proxy_fall_through envAllErr addrA none).1 (by decide)

/-- Claim C4 (amended): in the EIP-897 probe, when implementation() returns
a string decoding to a non-zero address, the probe succeeds if the
proxyType() call returns a value — with immutable true exactly when that
value is the string 0x…01 (the full 32-byte word for 1) — but a transport
failure on the secondary proxyType() call fails the whole probe (the source
propagates it with the ? operator). -/
theorem detect_eip897_spec (env : Env) (a tag : List Nat) (j : Json) (s t : List Nat)
    (h1 : env.rpc (callReq a EIP_897_IMPLEMENTATION tag) = .ok j)
    (h2 : j.asStr = some s) (h3 : read_address s = .ok t) :
    (∀ v, env.rpc (callReq a EIP_897_PROXY_TYPE tag) = .ok v →
      (detect_eip897 env a tag).fst
        = .ret (.ok (some (.Single t .Eip897 (decide (v.asStr.getD [] = PROXY_TYPE_ONE)))))) ∧
    (∀ e, env.rpc (callReq a EIP_897_PROXY_TYPE tag) = .error e →
      (detect_eip897 env a tag).fst = .ret (.error e)) := by
  constructor
  · intro v hv
    simp only [detect_eip897]
    rw [h1]
    simp only []
    rw [h2]
    simp only []
    rw [h3]
    simp only []
    rw [hv]
  · intro e he
    simp only [detect_eip897]
    rw [h1]
    simp only []
    rw [h2]
    simp only []
    rw [h3]
    simp only []
    rw [he]

/-- Claim C4 counterexample: implementation() returns a word holding a
non-zero address, yet the probe fails outright because proxyType() fails
with a transport error — instead of succeeding with immutable = false as the
claim states. -/
theorem detect_eip897_spec_counterexample :
    (detect_eip897 envProxyTypeDown addrA (bytes ("latest"))).fst
      = .ret (.error (bytes ("transport down"))) ∧
    envProxyTypeDown.rpc (callReq addrA EIP_897_IMPLEMENTATION (bytes ("latest")))
      = .ok (.str storageWord1) ∧
    read_address storageWord1 = .ok target11 ∧
    target11 ≠ ZERO_ADDRESS :=
  ⟨by decide, rfl, by decide, by decide⟩

/-- Witness for the amended claim C4: proxyType() answers a word other than
1, so the probe succeeds with immutable = false. -/
theorem detect_eip897_spec_witness :
    (detect_eip897 envAllMatch addrA (bytes ("latest"))).fst
      = .ret (.ok (some (.Single target11 .Eip897 false))) := by
  have h := (detect_eip897_spec envAllMatch addrA (bytes ("latest")) (.str storageWord1)
    storageWord1 target11 rfl rfl (by decide)).1 (.str storageWord1) rfl
  exact h

/-- Claim C9 (amended): every eth_call the detector emits carries a data
field equal to one of the nine selector constants, each of which is the
4-byte selector zero-padded on the right to a full 32-byte word — a
66-character 0x string whose last 56 hex digits are zeros — not a bare
8-hex-digit selector. -/
theorem detect_proxy_call_data :
    (∀ (env : Env) (a : List Nat) (tag? : Option (List Nat)) (req : RequestArguments),
      req ∈ (detect_proxy env a tag?).snd → req.method = bytes ("eth_call") →
      ∃ d, reqCallData req = some d ∧ d ∈ selectorDatas) ∧
    (∀ d ∈ selectorDatas, d.length = 66 ∧ List.drop 10 d = List.replicate 56 0x30) := by
  refine ⟨?_, by decide⟩
  intro env a tag? req hmem hm
  rcases detect_proxy_snd_mem hmem with h|h|h|h|h|h|h|h|h|h
  · rw [detect_eip1167_snd] at h
    simp at h
    subst h
    simp only [getCodeReq] at hm
    exact absurd hm (by decide)
  · simp only [detect_eip1967_direct] at h
    rw [storageSlotProbe_snd] at h
    simp at h
    subst h
    simp only [getStorageReq] at hm
    exact absurd hm (by decide)
  · rcases detect_eip1967_beacon_snd_mem h with h | ⟨b, h⟩ | ⟨b, h⟩
    · subst h
      simp only [getStorageReq] at hm
      exact absurd hm (by decide)
    · subst h
      exact ⟨_, reqCallData_callReq _ _ _, by decide⟩
    · subst h
      exact ⟨_, reqCallData_callReq _ _ _, by decide⟩
  · simp only [detect_open_zeppelin] at h
    rw [storageSlotProbe_snd] at h
    simp at h
    subst h
    simp only [getStorageReq] at hm
    exact absurd hm (by decide)
  · simp only [detect_eip1822] at h
    rw [storageSlotProbe_snd] at h
    simp at h
    subst h
    simp only [getStorageReq] at hm
    exact absurd hm (by decide)
  · rcases detect_eip897_snd_mem h with h | h
    · subst h
      exact ⟨_, reqCallData_callReq _ _ _, by decide⟩
    · subst h
      exact ⟨_, reqCallData_callReq _ _ _, by decide⟩
  · rw [detect_safe_snd] at h
    simp at h
    subst h
    exact ⟨_, reqCallData_callReq _ _ _, by decide⟩
  · rw [detect_comptroller_snd] at h
    simp at h
    subst h
    exact ⟨_, reqCallData_callReq _ _ _, by decide⟩
  · rcases detect_batch_relayer_snd_mem h with h | h
    · subst h
      exact ⟨_, reqCallData_callReq _ _ _, by decide⟩
    · subst h
      exact ⟨_, reqCallData_callReq _ _ _, by decide⟩
  · rw [detect_eip2535_diamond_snd] at h
    simp at h
    subst h
    exact ⟨_, reqCallData_callReq _ _ _, by decide⟩

/-- Claim C9 counterexample: the detector emits an eth_call whose data field
is the padded 66-character EIP-897 selector word, not an 8-hex-digit
selector string of length 10. -/
theorem detect_proxy_call_data_counterexample :
    ∃ req ∈ (detect_proxy envAllErr addrA none).snd,
      req.method = bytes ("eth_call") ∧ reqCallData req = some EIP_897_IMPLEMENTATION ∧
      EIP_897_IMPLEMENTATION.length = 66 ∧ EIP_897_IMPLEMENTATION.length ≠ 10 := by
  decide

/-- Witness for the amended claim C9 at a concrete emitted request. -/
theorem detect_proxy_call_data_witness :
    ∃ d, reqCallData (callReq addrA EIP_897_IMPLEMENTATION (bytes ("latest"))) = some d
      ∧ d ∈ selectorDatas := by
  have ht : (detect_proxy envAllErr addrA none).snd
      = [getCodeReq addrA (bytes ("latest")),
         getStorageReq addrA EIP_1967_LOGIC_SLOT (bytes ("latest")),
         getStorageReq addrA EIP_1967_BEACON_SLOT (bytes ("latest")),
         getStorageReq addrA OPEN_ZEPPELIN_IMPLEMENTATION_SLOT (bytes ("latest")),
         getStorageReq addrA EIP_1822_LOGIC_SLOT (bytes ("latest")),
         callReq addrA EIP_897_IMPLEMENTATION (bytes ("latest")),
         callReq addrA SAFE_MASTER_COPY (bytes ("latest")),
         callReq addrA COMPTROLLER_IMPLEMENTATION (bytes ("latest")),
         callReq addrA BATCH_RELAYER_VERSION (bytes ("latest")),
         callReq addrA EIP_2535_FACET_ADDRESSES (bytes ("latest"))] := rfl
  apply detect_proxy_call_data.1 envAllErr addrA none
  · rw [ht]
    exact List.mem_cons_of_mem _ (List.mem_cons_of_mem _ (List.mem_cons_of_mem _
      (List.mem_cons_of_mem _ (List.mem_cons_of_mem _ (List.mem_cons_self _ _)))))
  · rfl

end Harpoon

